import Mathlib

/-!
Shallow embedding of the monopoly-multiplayer game server
(src/server/game_engine and src/server/network) together with proofs
checking the specification's claims against it.  Every definition in the
first part of the file is translated from the Python source; definitions
whose name ends in `Spec` are written from the specification's words and
are compared against the translated code.
-/

namespace Monopoly

/-- Space types, from shared/enums.py SpaceType. -/
inductive SpaceType where
  | PROPERTY | RAILROAD | UTILITY | GO | JAIL | FREE_PARKING
  | GO_TO_JAIL | TAX | CHANCE | COMMUNITY_CHEST
  deriving DecidableEq

/-- Player states, from shared/enums.py PlayerState. -/
inductive PlayerState where
  | ACTIVE | IN_JAIL | BANKRUPT | DISCONNECTED
  deriving DecidableEq

/-- Turn phases, from shared/enums.py GamePhase. -/
inductive GamePhase where
  | WAITING | PRE_ROLL | POST_ROLL | PROPERTY_DECISION
  | TRADING | PAYING_RENT | BANKRUPT | GAME_OVER
  deriving DecidableEq

/-- Card kinds, from shared/enums.py CardType. -/
inductive CardType where
  | CHANCE | COMMUNITY_CHEST
  deriving DecidableEq

/-- One purchasable board space, from board.py Property: static data
(position, name, type, cost, group, rents, house cost) plus the mutable
ownership and development state. -/
structure Property where
  position : Nat
  name : String
  spaceType : SpaceType
  cost : Nat
  group : String
  rents : Option (List Nat)
  houseCost : Option Nat
  ownerId : Option String := none
  houses : Nat := 0
  hasHotel : Bool := false
  isMortgaged : Bool := false
  deriving DecidableEq

/-- Indexing into the rent table, mirroring Python list indexing
(rents is None for utilities, which never index it). -/
def Property.rentsIdx (p : Property) (i : Nat) : Nat :=
  (p.rents.getD []).getD i 0

/-- Property.is_owned. -/
def Property.isOwned (p : Property) : Bool :=
  p.ownerId.isSome

/-- Property.can_be_developed. -/
def Property.canBeDeveloped (p : Property) : Bool :=
  p.spaceType == SpaceType.PROPERTY && !p.isMortgaged && p.houseCost.isSome

/-- Property.development_level: 0 = undeveloped, 1-4 = houses, 5 = hotel. -/
def Property.developmentLevel (p : Property) : Nat :=
  if p.hasHotel then 5 else p.houses

/-- Property.mortgage_value: half the purchase price. -/
def Property.mortgageValue (p : Property) : Nat :=
  p.cost / 2

/-- Property.unmortgage_cost: mortgage value plus 10 percent.  The Python
source computes int(mortgage_value * 1.1) in floating point; on every
mortgage value of the standard board this equals 11 * value / 10 with
truncating division, which is what we use. -/
def Property.unmortgageCost (p : Property) : Nat :=
  11 * p.mortgageValue / 10

/-- Property.calculate_rent from board.py lines 70-110. -/
def Property.calculateRent (p : Property) (diceRoll : Nat)
    (sameGroupOwned : Nat) (hasMonopoly : Bool) : Nat :=
  if p.isMortgaged ∨ ¬ p.isOwned then 0
  else
    match p.spaceType with
    | .PROPERTY =>
        if p.hasHotel then p.rentsIdx 5
        else if 0 < p.houses then p.rentsIdx p.houses
        else if hasMonopoly then p.rentsIdx 0 * 2
        else p.rentsIdx 0
    | .RAILROAD =>
        if 1 ≤ sameGroupOwned ∧ sameGroupOwned ≤ 4 then
          p.rentsIdx (sameGroupOwned - 1)
        else p.rentsIdx 0
    | .UTILITY =>
        diceRoll * (if sameGroupOwned = 1 then 4
                    else if sameGroupOwned = 2 then 10 else 4)
    | _ => 0

/-- A Board is the collection of Property objects, the values of the Python
dict Board.properties (keys are the position fields). -/
abbrev Board := List Property

/-- Board.get_property. -/
def getProperty (b : Board) (pos : Nat) : Option Property :=
  b.find? (fun p => p.position == pos)

/-- Board.get_group_properties. -/
def getGroupProperties (b : Board) (g : String) : List Property :=
  b.filter (fun p => p.group == g)

/-- Board.player_has_monopoly. -/
def playerHasMonopoly (b : Board) (pid : String) (g : String) : Bool :=
  if g = "RAILROAD" ∨ g = "UTILITY" then false
  else
    let gp := getGroupProperties b g
    if gp.isEmpty then false
    else gp.all (fun p => p.ownerId == some pid)

/-- Board.count_group_owned. -/
def countGroupOwned (b : Board) (pid : String) (g : String) : Nat :=
  (getGroupProperties b g).countP (fun p => p.ownerId == some pid)

/-- Board.calculate_rent from board.py lines 357-390. -/
def boardCalculateRent (b : Board) (pos : Nat) (diceRoll : Nat)
    (landingPlayerId : Option String) : Nat :=
  match getProperty b pos with
  | none => 0
  | some prop =>
      match prop.ownerId with
      | none => 0
      | some owner =>
          if some owner = landingPlayerId then 0
          else
            prop.calculateRent diceRoll
              (countGroupOwned b owner prop.group)
              (playerHasMonopoly b owner prop.group)

/-- Spec-side notion for claim C1: the owner holds the full color group. -/
def ownsFullGroup (b : Board) (owner : String) (g : String) : Bool :=
  (getGroupProperties b g).all (fun p => p.ownerId == some owner)

/-- Spec-side rent formula, written from the words of claim C1: 0 if the
property is unowned, owned by the landing player, or mortgaged; for color
properties, double the base rent when the owner holds the full color group
and the property has no houses, otherwise the rent-table entry indexed by
house count, with index 5 used when a hotel is present; for railroads, the
rent tier indexed by how many railroads (1..4) the owner holds; for
utilities, the dice total times 4 with one utility owned and times 10 with
both. -/
def rentSpec (b : Board) (pos : Nat) (diceRoll : Nat)
    (landingPlayerId : Option String) : Nat :=
  match getProperty b pos with
  | none => 0
  | some prop =>
      match prop.ownerId with
      | none => 0
      | some owner =>
          if some owner = landingPlayerId ∨ prop.isMortgaged then 0
          else
            match prop.spaceType with
            | .PROPERTY =>
                if prop.hasHotel then prop.rentsIdx 5
                else if 0 < prop.houses then prop.rentsIdx prop.houses
                else if ownsFullGroup b owner prop.group then
                  2 * prop.rentsIdx 0
                else prop.rentsIdx 0
            | .RAILROAD =>
                prop.rentsIdx (countGroupOwned b owner prop.group - 1)
            | .UTILITY =>
                diceRoll *
                  (if countGroupOwned b owner prop.group = 2 then 10 else 4)
            | _ => 0

/-- Mutable part of a property's state, used to build copies of the
standard board that differ only in ownership and development. -/
structure PropMut where
  ownerId : Option String := none
  houses : Nat := 0
  hasHotel : Bool := false
  isMortgaged : Bool := false
  deriving DecidableEq

/-- Builds one standard-board property with mutable state taken from m. -/
def stdProp (m : Nat → PropMut) (position : Nat) (name : String)
    (st : SpaceType) (cost : Nat) (group : String)
    (rents : Option (List Nat)) (houseCost : Option Nat) : Property :=
  { position := position, name := name, spaceType := st, cost := cost,
    group := group, rents := rents, houseCost := houseCost,
    ownerId := (m position).ownerId, houses := (m position).houses,
    hasHotel := (m position).hasHotel, isMortgaged := (m position).isMortgaged }

/-- The 28 purchasable properties of the standard board, from
shared/constants.py PROPERTIES, in Python dict insertion order, with the
mutable state of the property at each position taken from m. -/
def mkStdBoard (m : Nat → PropMut) : Board := [
  stdProp m 1 "Mediterranean Avenue" .PROPERTY 60 "BROWN" (some [2,10,30,90,160,250]) (some 50),
  stdProp m 3 "Baltic Avenue" .PROPERTY 60 "BROWN" (some [4,20,60,180,320,450]) (some 50),
  stdProp m 6 "Oriental Avenue" .PROPERTY 100 "LIGHT_BLUE" (some [6,30,90,270,400,550]) (some 50),
  stdProp m 8 "Vermont Avenue" .PROPERTY 100 "LIGHT_BLUE" (some [6,30,90,270,400,550]) (some 50),
  stdProp m 9 "Connecticut Avenue" .PROPERTY 120 "LIGHT_BLUE" (some [8,40,100,300,450,600]) (some 50),
  stdProp m 11 "St. Charles Place" .PROPERTY 140 "PINK" (some [10,50,150,450,625,750]) (some 100),
  stdProp m 13 "States Avenue" .PROPERTY 140 "PINK" (some [10,50,150,450,625,750]) (some 100),
  stdProp m 14 "Virginia Avenue" .PROPERTY 160 "PINK" (some [12,60,180,500,700,900]) (some 100),
  stdProp m 16 "St. James Place" .PROPERTY 180 "ORANGE" (some [14,70,200,550,750,950]) (some 100),
  stdProp m 18 "Tennessee Avenue" .PROPERTY 180 "ORANGE" (some [14,70,200,550,750,950]) (some 100),
  stdProp m 19 "New York Avenue" .PROPERTY 200 "ORANGE" (some [16,80,220,600,800,1000]) (some 100),
  stdProp m 21 "Kentucky Avenue" .PROPERTY 220 "RED" (some [18,90,250,700,875,1050]) (some 150),
  stdProp m 23 "Indiana Avenue" .PROPERTY 220 "RED" (some [18,90,250,700,875,1050]) (some 150),
  stdProp m 24 "Illinois Avenue" .PROPERTY 240 "RED" (some [20,100,300,750,925,1100]) (some 150),
  stdProp m 26 "Atlantic Avenue" .PROPERTY 260 "YELLOW" (some [22,110,330,800,975,1150]) (some 150),
  stdProp m 27 "Ventnor Avenue" .PROPERTY 260 "YELLOW" (some [22,110,330,800,975,1150]) (some 150),
  stdProp m 29 "Marvin Gardens" .PROPERTY 280 "YELLOW" (some [24,120,360,850,1025,1200]) (some 150),
  stdProp m 31 "Pacific Avenue" .PROPERTY 300 "GREEN" (some [26,130,390,900,1100,1275]) (some 200),
  stdProp m 32 "North Carolina Avenue" .PROPERTY 300 "GREEN" (some [26,130,390,900,1100,1275]) (some 200),
  stdProp m 34 "Pennsylvania Avenue" .PROPERTY 320 "GREEN" (some [28,150,450,1000,1200,1400]) (some 200),
  stdProp m 37 "Park Place" .PROPERTY 350 "DARK_BLUE" (some [35,175,500,1100,1300,1500]) (some 200),
  stdProp m 39 "Boardwalk" .PROPERTY 400 "DARK_BLUE" (some [50,200,600,1400,1700,2000]) (some 200),
  stdProp m 5 "Reading Railroad" .RAILROAD 200 "RAILROAD" (some [25,50,100,200]) none,
  stdProp m 15 "Pennsylvania Railroad" .RAILROAD 200 "RAILROAD" (some [25,50,100,200]) none,
  stdProp m 25 "B & O Railroad" .RAILROAD 200 "RAILROAD" (some [25,50,100,200]) none,
  stdProp m 35 "Short Line" .RAILROAD 200 "RAILROAD" (some [25,50,100,200]) none,
  stdProp m 12 "Electric Company" .UTILITY 150 "UTILITY" none none,
  stdProp m 28 "Water Works" .UTILITY 150 "UTILITY" none none ]

/-- Fresh board: every property unowned and undeveloped, as produced by
Board._initialize_properties. -/
def freshBoard : Board := mkStdBoard (fun _ => {})

/-- Claim C1.  On any board whose railroad groups have at most four members
and whose color properties do not use the reserved RAILROAD/UTILITY group
names (both facts hold on the standard board), the rent computed by
Board.calculate_rent coincides with the specification's rent formula. -/
theorem calculate_rent_matches_spec (b : Board) (pos diceRoll : Nat)
    (landing : Option String)
    (hrr : ∀ p ∈ b, p.spaceType = .RAILROAD →
      (getGroupProperties b p.group).length ≤ 4)
    (hcol : ∀ p ∈ b, p.spaceType = .PROPERTY →
      p.group ≠ "RAILROAD" ∧ p.group ≠ "UTILITY") :
    boardCalculateRent b pos diceRoll landing = rentSpec b pos diceRoll landing := by
  cases hfind : getProperty b pos with
  | none => simp [boardCalculateRent, rentSpec, hfind]
  | some prop =>
    have hmem : prop ∈ b := List.mem_of_find?_eq_some hfind
    cases howner : prop.ownerId with
    | none => simp [boardCalculateRent, rentSpec, hfind, howner]
    | some owner =>
      simp only [boardCalculateRent, rentSpec, hfind, howner]
      by_cases hland : some owner = landing
      · simp [hland]
      · by_cases hmort : prop.isMortgaged
        · simp [hland, hmort, Property.calculateRent]
        · have hgp : prop ∈ getGroupProperties b prop.group :=
            List.mem_filter.mpr ⟨hmem, by simp⟩
          rw [if_neg hland, if_neg (by simp [hland, hmort])]
          unfold Property.calculateRent
          rw [if_neg (by simp [hmort, Property.isOwned, howner])]
          cases hst : prop.spaceType with
          | PROPERTY =>
            have hg := hcol prop hmem hst
            have hmono : playerHasMonopoly b owner prop.group =
                ownsFullGroup b owner prop.group := by
              unfold playerHasMonopoly ownsFullGroup
              rw [if_neg (by tauto)]
              have : (getGroupProperties b prop.group).isEmpty = false := by
                cases hgl : getGroupProperties b prop.group with
                | nil => rw [hgl] at hgp; cases hgp
                | cons a l => simp [List.isEmpty]
              simp [this]
            simp [hmono, Nat.mul_comm]
          | RAILROAD =>
            have h1 : 0 < countGroupOwned b owner prop.group := by
              unfold countGroupOwned
              rw [List.countP_pos_iff]
              exact ⟨prop, hgp, by simp [howner]⟩
            have h4 : countGroupOwned b owner prop.group ≤ 4 := by
              unfold countGroupOwned
              exact le_trans (List.countP_le_length _) (hrr prop hmem hst)
            exact if_pos (And.intro h1 h4)
          | UTILITY =>
            by_cases hone : countGroupOwned b owner prop.group = 1
            · simp [hone]
            · simp [hone]
          | GO => rfl
          | JAIL => rfl
          | FREE_PARKING => rfl
          | GO_TO_JAIL => rfl
          | TAX => rfl
          | CHANCE => rfl
          | COMMUNITY_CHEST => rfl

/-- Mutable state for the C1 witness: player A owns the full Brown group,
undeveloped. -/
def c1Muts : Nat → PropMut :=
  fun pos => if pos = 1 ∨ pos = 3 then { ownerId := some "A" } else {}

/-- Witness for C1: on the standard board with a full Brown monopoly and no
houses, landing on Mediterranean Avenue (position 1) matches the spec
formula and charges double base rent, 4 instead of 2. -/
theorem calculate_rent_matches_spec_witness :
    boardCalculateRent (mkStdBoard c1Muts) 1 7 (some "B") =
      rentSpec (mkStdBoard c1Muts) 1 7 (some "B") ∧
    boardCalculateRent (mkStdBoard c1Muts) 1 7 (some "B") = 4 :=
  ⟨calculate_rent_matches_spec _ _ _ _ (by decide) (by decide), by decide⟩

/-! Cards, from cards.py. -/

/-- Card effect kinds, from cards.py CardAction. -/
inductive CardAction where
  | COLLECT_MONEY | PAY_MONEY | COLLECT_FROM_PLAYERS | PAY_TO_PLAYERS
  | MOVE_TO | MOVE_FORWARD | MOVE_BACK | GO_TO_JAIL | GET_OUT_OF_JAIL | REPAIRS
  deriving DecidableEq

/-- A Chance or Community Chest card, from cards.py Card. -/
structure Card where
  cardType : CardType
  text : String
  action : CardAction
  value : Int := 0
  perHouse : Nat := 0
  perHotel : Nat := 0
  keep : Bool := false
  deriving DecidableEq

/-- The 16 Chance cards, from cards.py CHANCE_CARDS. -/
def chanceCards : List Card := [
  { cardType := .CHANCE, text := "Advance to Go (Collect $200)", action := .MOVE_TO, value := 0 },
  { cardType := .CHANCE, text := "Advance to Illinois Avenue.", action := .MOVE_TO, value := 24 },
  { cardType := .CHANCE, text := "Advance to St. Charles Place.", action := .MOVE_TO, value := 11 },
  { cardType := .CHANCE, text := "Advance to nearest Utility.", action := .MOVE_TO, value := -1 },
  { cardType := .CHANCE, text := "Advance to nearest Railroad.", action := .MOVE_TO, value := -2 },
  { cardType := .CHANCE, text := "Bank pays you dividend of $50.", action := .COLLECT_MONEY, value := 50 },
  { cardType := .CHANCE, text := "Get Out of Jail Free.", action := .GET_OUT_OF_JAIL, keep := true },
  { cardType := .CHANCE, text := "Go Back 3 Spaces.", action := .MOVE_BACK, value := 3 },
  { cardType := .CHANCE, text := "Go to Jail.", action := .GO_TO_JAIL },
  { cardType := .CHANCE, text := "Make general repairs on all your property.", action := .REPAIRS, perHouse := 25, perHotel := 100 },
  { cardType := .CHANCE, text := "Speeding fine $15.", action := .PAY_MONEY, value := 15 },
  { cardType := .CHANCE, text := "Take a trip to Reading Railroad.", action := .MOVE_TO, value := 5 },
  { cardType := .CHANCE, text := "You have been elected Chairman of the Board. Pay each player $50.", action := .PAY_TO_PLAYERS, value := 50 },
  { cardType := .CHANCE, text := "Your building loan matures. Collect $150.", action := .COLLECT_MONEY, value := 150 },
  { cardType := .CHANCE, text := "Advance to Boardwalk.", action := .MOVE_TO, value := 39 },
  { cardType := .CHANCE, text := "Advance to nearest Railroad.", action := .MOVE_TO, value := -2 } ]

/-- The 16 Community Chest cards, from cards.py COMMUNITY_CHEST_CARDS. -/
def communityChestCards : List Card := [
  { cardType := .COMMUNITY_CHEST, text := "Advance to Go (Collect $200).", action := .MOVE_TO, value := 0 },
  { cardType := .COMMUNITY_CHEST, text := "Bank error in your favor. Collect $200.", action := .COLLECT_MONEY, value := 200 },
  { cardType := .COMMUNITY_CHEST, text := "Doctor fee. Pay $50.", action := .PAY_MONEY, value := 50 },
  { cardType := .COMMUNITY_CHEST, text := "From sale of stock you get $50.", action := .COLLECT_MONEY, value := 50 },
  { cardType := .COMMUNITY_CHEST, text := "Get Out of Jail Free.", action := .GET_OUT_OF_JAIL, keep := true },
  { cardType := .COMMUNITY_CHEST, text := "Go to Jail.", action := .GO_TO_JAIL },
  { cardType := .COMMUNITY_CHEST, text := "Holiday fund matures. Receive $100.", action := .COLLECT_MONEY, value := 100 },
  { cardType := .COMMUNITY_CHEST, text := "Income tax refund. Collect $20.", action := .COLLECT_MONEY, value := 20 },
  { cardType := .COMMUNITY_CHEST, text := "It is your birthday. Collect $10 from every player.", action := .COLLECT_FROM_PLAYERS, value := 10 },
  { cardType := .COMMUNITY_CHEST, text := "Life insurance matures. Collect $100.", action := .COLLECT_MONEY, value := 100 },
  { cardType := .COMMUNITY_CHEST, text := "Pay hospital fees of $100.", action := .PAY_MONEY, value := 100 },
  { cardType := .COMMUNITY_CHEST, text := "Pay school fees of $50.", action := .PAY_MONEY, value := 50 },
  { cardType := .COMMUNITY_CHEST, text := "Receive $25 consultancy fee.", action := .COLLECT_MONEY, value := 25 },
  { cardType := .COMMUNITY_CHEST, text := "You are assessed for street repair.", action := .REPAIRS, perHouse := 40, perHotel := 115 },
  { cardType := .COMMUNITY_CHEST, text := "You have won second prize in a beauty contest. Collect $10.", action := .COLLECT_MONEY, value := 10 },
  { cardType := .COMMUNITY_CHEST, text := "You inherit $100.", action := .COLLECT_MONEY, value := 100 } ]

/-- A card deck, from cards.py CardDeck.  Randomness is made explicit: every
operation that shuffles receives the shuffle as a function argument. -/
structure CardDeck where
  cardType : CardType
  cards : List Card
  discard : List Card
  deriving DecidableEq

/-- CardDeck.reset: a full shuffled draw pile and an empty discard pile. -/
def deckReset (sh : List Card → List Card) (ct : CardType) : CardDeck :=
  { cardType := ct,
    cards := sh (match ct with
      | .CHANCE => chanceCards
      | .COMMUNITY_CHEST => communityChestCards),
    discard := [] }

/-- CardDeck.draw: pop the head card, reshuffling the discard pile into the
draw pile first when empty; non-keep cards go to the discard pile.  Returns
none only when both piles are empty (in Python this would raise). -/
def deckDraw (sh : List Card → List Card) (d : CardDeck) : Option (Card × CardDeck) :=
  let d := if d.cards.isEmpty then
      { d with cards := sh d.discard, discard := [] }
    else d
  match d.cards with
  | [] => none
  | c :: rest =>
      let d := { d with cards := rest }
      let d := if c.keep then d else { d with discard := d.discard ++ [c] }
      some (c, d)

/-- CardDeck.return_card: a kept card goes onto the discard pile. -/
def deckReturnCard (d : CardDeck) (c : Card) : CardDeck :=
  { d with discard := d.discard ++ [c] }

/-- The fresh Get Out of Jail Free card that CardManager.return_jail_card
constructs when handing a used jail card back to a deck. -/
def gojfCard (ct : CardType) : Card :=
  { cardType := ct, text := "Get Out of Jail Free.", action := .GET_OUT_OF_JAIL, keep := true }

/-! Players, from player.py. -/

/-- A player, from player.py Player (the connection id, irrelevant to the
engine, is omitted).  The owned-property set is modeled as a duplicate-free
list. -/
structure Player where
  name : String
  id : String
  money : Int := 1500
  position : Nat := 0
  state : PlayerState := .ACTIVE
  jailTurns : Nat := 0
  jailCards : Nat := 0
  properties : List Nat := []
  consecutiveDoubles : Nat := 0
  hasRolled : Bool := false
  deriving DecidableEq

/-- Player.add_money (amount may be negative). -/
def Player.addMoney (p : Player) (amount : Int) : Player :=
  { p with money := p.money + amount }

/-- Player.remove_money: deducts only when the balance suffices, otherwise
leaves the balance unchanged (the Python method returns False then). -/
def Player.removeMoney (p : Player) (amount : Int) : Player :=
  if amount ≤ p.money then { p with money := p.money - amount } else p

/-- Player.can_afford. -/
def Player.canAfford (p : Player) (amount : Int) : Bool :=
  amount ≤ p.money

/-- Player.move_to: returns the moved player and whether GO salary was
collected. -/
def Player.moveTo (p : Player) (position : Nat) (collectGo : Bool) : Player × Bool :=
  if collectGo ∧ position < p.position ∧ p.state ≠ .IN_JAIL then
    ({ p.addMoney 200 with position := position % 40 }, true)
  else ({ p with position := position % 40 }, false)

/-- Player.move_forward. -/
def Player.moveForward (p : Player) (spaces : Nat) : Player × Bool :=
  p.moveTo ((p.position + spaces) % 40) true

/-- Player.send_to_jail. -/
def Player.sendToJail (p : Player) : Player :=
  { p with position := 10, state := .IN_JAIL, jailTurns := 0, consecutiveDoubles := 0 }

/-- Player.release_from_jail. -/
def Player.releaseFromJail (p : Player) : Player :=
  { p with state := .ACTIVE, jailTurns := 0 }

/-- Player.add_property (set insertion). -/
def Player.addProperty (p : Player) (pos : Nat) : Player :=
  { p with properties := if pos ∈ p.properties then p.properties else p.properties ++ [pos] }

/-- Player.declare_bankruptcy: mark BANKRUPT and clear the property set. -/
def Player.declareBankrupt (p : Player) : Player :=
  { p with state := .BANKRUPT, properties := [] }

/-- Player.reset_turn, translated literally: has_rolled is cleared, but the
consecutive-doubles counter is assigned 0 only under the guard
"if not self.consecutive_doubles", i.e. only when it is already 0. -/
def Player.resetTurn (p : Player) : Player :=
  { p with
    hasRolled := false
    consecutiveDoubles := if p.consecutiveDoubles = 0 then 0 else p.consecutiveDoubles }

/-- A dice result, from dice.py DiceResult.  The roll itself is an input to
the engine in this embedding. -/
structure DiceResult where
  die1 : Nat
  die2 : Nat
  deriving DecidableEq

/-- DiceResult.total. -/
def DiceResult.total (d : DiceResult) : Nat := d.die1 + d.die2

/-- DiceResult.is_double. -/
def DiceResult.isDouble (d : DiceResult) : Bool := d.die1 == d.die2

/-! The static 40-space layout, from shared/constants.py BOARD_SPACES. -/

/-- Space type at each board position. -/
def spaceTypeAt : Nat → SpaceType
  | 0 => .GO | 1 => .PROPERTY | 2 => .COMMUNITY_CHEST | 3 => .PROPERTY | 4 => .TAX
  | 5 => .RAILROAD | 6 => .PROPERTY | 7 => .CHANCE | 8 => .PROPERTY | 9 => .PROPERTY
  | 10 => .JAIL | 11 => .PROPERTY | 12 => .UTILITY | 13 => .PROPERTY | 14 => .PROPERTY
  | 15 => .RAILROAD | 16 => .PROPERTY | 17 => .COMMUNITY_CHEST | 18 => .PROPERTY | 19 => .PROPERTY
  | 20 => .FREE_PARKING | 21 => .PROPERTY | 22 => .CHANCE | 23 => .PROPERTY | 24 => .PROPERTY
  | 25 => .RAILROAD | 26 => .PROPERTY | 27 => .PROPERTY | 28 => .UTILITY | 29 => .PROPERTY
  | 30 => .GO_TO_JAIL | 31 => .PROPERTY | 32 => .PROPERTY | 33 => .COMMUNITY_CHEST | 34 => .PROPERTY
  | 35 => .RAILROAD | 36 => .CHANCE | 37 => .PROPERTY | 38 => .TAX | 39 => .PROPERTY
  | _ => .GO

/-- Cost field of the tax spaces (the only landing path that reads a space
cost from BOARD_SPACES). -/
def spaceCostAt : Nat → Nat
  | 4 => 200
  | 38 => 100
  | _ => 0

/-! Rule validation, from rules.py. -/

/-- Action result codes, from rules.py ActionResult. -/
inductive ActionRes where
  | SUCCESS | INSUFFICIENT_FUNDS | NOT_YOUR_TURN | INVALID_PROPERTY
  | PROPERTY_OWNED | PROPERTY_NOT_OWNED | NOT_OWNER | NO_MONOPOLY
  | UNEVEN_BUILDING | MAX_DEVELOPMENT | PROPERTY_MORTGAGED | HAS_BUILDINGS
  | NOT_IN_JAIL | ALREADY_ROLLED | MUST_ROLL | INVALID_TRADE
  | GAME_NOT_STARTED | GAME_ALREADY_STARTED | NOT_ENOUGH_PLAYERS
  | TOO_MANY_PLAYERS | PLAYER_BANKRUPT | NO_BUILDINGS_AVAILABLE
  deriving DecidableEq

/-- Validation result, from rules.py ValidationResult. -/
structure ValidationResult where
  valid : Bool
  result : ActionRes
  message : String
  deriving DecidableEq

/-- ValidationResult.success. -/
def VSuccess : ValidationResult := ⟨true, .SUCCESS, ""⟩

/-- ValidationResult.failure. -/
def VFailure (r : ActionRes) (msg : String) : ValidationResult := ⟨false, r, msg⟩

/-- RuleEngine.validate_roll_dice. -/
def validateRollDice (player : Player) (currentId : String) (phase : GamePhase) : ValidationResult :=
  if player.id ≠ currentId then VFailure .NOT_YOUR_TURN "It is not your turn"
  else if ¬ (phase = .PRE_ROLL ∨ phase = .POST_ROLL) then
    VFailure .GAME_NOT_STARTED "Game is not in a rollable phase"
  else if player.hasRolled ∧ player.state ≠ .IN_JAIL then
    VFailure .ALREADY_ROLLED "You have already rolled this turn"
  else VSuccess

/-- RuleEngine.validate_buy_property. -/
def validateBuyProperty (b : Board) (player : Player) (position : Nat)
    (currentId : String) (phase : GamePhase) : ValidationResult :=
  if player.id ≠ currentId then VFailure .NOT_YOUR_TURN "It is not your turn"
  else if phase ≠ .PROPERTY_DECISION then
    VFailure .INVALID_PROPERTY "Not in property decision phase"
  else if player.position ≠ position then
    VFailure .INVALID_PROPERTY "You are not on this property"
  else
    match getProperty b position with
    | none => VFailure .INVALID_PROPERTY "This space is not a purchasable property"
    | some prop =>
        if prop.isOwned then VFailure .PROPERTY_OWNED "Property is already owned"
        else if ¬ player.canAfford prop.cost then
          VFailure .INSUFFICIENT_FUNDS "You cannot afford this property"
        else VSuccess

/-- Board.can_build_house (the even-building check used by validation). -/
def canBuildHouse (b : Board) (position : Nat) (pid : String) : Bool :=
  match getProperty b position with
  | none => false
  | some prop =>
      if prop.ownerId ≠ some pid then false
      else if ¬ prop.canBeDeveloped then false
      else if 4 ≤ prop.houses ∨ prop.hasHotel then false
      else if ¬ playerHasMonopoly b pid prop.group then false
      else
        let minHouses := (((getGroupProperties b prop.group).map Property.developmentLevel).min?).getD 0
        decide (prop.developmentLevel ≤ minHouses)

/-- Board.can_build_hotel. -/
def canBuildHotel (b : Board) (position : Nat) (pid : String) : Bool :=
  match getProperty b position with
  | none => false
  | some prop =>
      if prop.ownerId ≠ some pid then false
      else if ¬ prop.canBeDeveloped then false
      else if prop.houses ≠ 4 ∨ prop.hasHotel then false
      else if ¬ playerHasMonopoly b pid prop.group then false
      else (getGroupProperties b prop.group).all (fun p => decide (4 ≤ p.houses) || p.hasHotel)

/-- RuleEngine.validate_build_house. -/
def validateBuildHouse (b : Board) (housesAvailable : Int) (player : Player)
    (position : Nat) (currentId : String) : ValidationResult :=
  if player.id ≠ currentId then VFailure .NOT_YOUR_TURN "It is not your turn"
  else
    match getProperty b position with
    | none => VFailure .INVALID_PROPERTY "This is not a property"
    | some prop =>
        if prop.ownerId ≠ some player.id then VFailure .NOT_OWNER "You do not own this property"
        else if prop.spaceType ≠ .PROPERTY then
          VFailure .INVALID_PROPERTY "Can only build on color properties"
        else if prop.isMortgaged then
          VFailure .PROPERTY_MORTGAGED "Cannot build on mortgaged property"
        else if ¬ playerHasMonopoly b player.id prop.group then
          VFailure .NO_MONOPOLY "You need a monopoly to build"
        else if (getGroupProperties b prop.group).any (fun p => p.isMortgaged) then
          VFailure .PROPERTY_MORTGAGED "Cannot build while any property in group is mortgaged"
        else if prop.hasHotel then
          VFailure .MAX_DEVELOPMENT "Property already has a hotel"
        else if 4 ≤ prop.houses then
          VFailure .MAX_DEVELOPMENT "Property has maximum houses, build a hotel instead"
        else if ¬ canBuildHouse b position player.id then
          VFailure .UNEVEN_BUILDING "Must build evenly across all properties in group"
        else if housesAvailable ≤ 0 then
          VFailure .NO_BUILDINGS_AVAILABLE "No houses available in the bank"
        else if ¬ player.canAfford (prop.houseCost.getD 0) then
          VFailure .INSUFFICIENT_FUNDS "You cannot afford a house"
        else VSuccess

/-- RuleEngine.validate_build_hotel. -/
def validateBuildHotel (b : Board) (hotelsAvailable : Int) (player : Player)
    (position : Nat) (currentId : String) : ValidationResult :=
  if player.id ≠ currentId then VFailure .NOT_YOUR_TURN "It is not your turn"
  else
    match getProperty b position with
    | none => VFailure .INVALID_PROPERTY "This is not a property"
    | some prop =>
        if prop.ownerId ≠ some player.id then VFailure .NOT_OWNER "You do not own this property"
        else if prop.spaceType ≠ .PROPERTY then
          VFailure .INVALID_PROPERTY "Can only build on color properties"
        else if prop.isMortgaged then
          VFailure .PROPERTY_MORTGAGED "Cannot build on mortgaged property"
        else if prop.hasHotel then
          VFailure .MAX_DEVELOPMENT "Property already has a hotel"
        else if prop.houses ≠ 4 then
          VFailure .UNEVEN_BUILDING "Need 4 houses before building a hotel"
        else if ¬ canBuildHotel b position player.id then
          VFailure .UNEVEN_BUILDING "Must build evenly across all properties in group"
        else if hotelsAvailable ≤ 0 then
          VFailure .NO_BUILDINGS_AVAILABLE "No hotels available in the bank"
        else if ¬ player.canAfford (prop.houseCost.getD 0) then
          VFailure .INSUFFICIENT_FUNDS "You cannot afford a hotel"
        else VSuccess

/-- RuleEngine.validate_sell_house. -/
def validateSellHouse (b : Board) (player : Player) (position : Nat) : ValidationResult :=
  match getProperty b position with
  | none => VFailure .INVALID_PROPERTY "This is not a property"
  | some prop =>
      if prop.ownerId ≠ some player.id then VFailure .NOT_OWNER "You do not own this property"
      else if prop.houses ≤ 0 ∧ ¬ prop.hasHotel then
        VFailure .HAS_BUILDINGS "No buildings to sell"
      else if 0 < prop.houses ∧
          prop.developmentLevel <
            ((((getGroupProperties b prop.group).map Property.developmentLevel).max?).getD 0) then
        VFailure .UNEVEN_BUILDING "Must sell evenly across all properties in group"
      else VSuccess

/-- RuleEngine.validate_mortgage. -/
def validateMortgage (b : Board) (player : Player) (position : Nat) : ValidationResult :=
  match getProperty b position with
  | none => VFailure .INVALID_PROPERTY "This is not a property"
  | some prop =>
      if prop.ownerId ≠ some player.id then VFailure .NOT_OWNER "You do not own this property"
      else if prop.isMortgaged then VFailure .PROPERTY_MORTGAGED "Property is already mortgaged"
      else if 0 < prop.houses ∨ prop.hasHotel then
        VFailure .HAS_BUILDINGS "Must sell all buildings before mortgaging"
      else VSuccess

/-- RuleEngine.validate_unmortgage. -/
def validateUnmortgage (b : Board) (player : Player) (position : Nat) : ValidationResult :=
  match getProperty b position with
  | none => VFailure .INVALID_PROPERTY "This is not a property"
  | some prop =>
      if prop.ownerId ≠ some player.id then VFailure .NOT_OWNER "You do not own this property"
      else if ¬ prop.isMortgaged then VFailure .PROPERTY_MORTGAGED "Property is not mortgaged"
      else if ¬ player.canAfford prop.unmortgageCost then
        VFailure .INSUFFICIENT_FUNDS "You cannot afford to unmortgage"
      else VSuccess

/-- RuleEngine.validate_pay_bail. -/
def validatePayBail (player : Player) (currentId : String) : ValidationResult :=
  if player.id ≠ currentId then VFailure .NOT_YOUR_TURN "It is not your turn"
  else if player.state ≠ .IN_JAIL then VFailure .NOT_IN_JAIL "You are not in jail"
  else if ¬ player.canAfford 50 then VFailure .INSUFFICIENT_FUNDS "You cannot afford bail"
  else VSuccess

/-- RuleEngine.validate_use_jail_card. -/
def validateUseJailCard (player : Player) (currentId : String) : ValidationResult :=
  if player.id ≠ currentId then VFailure .NOT_YOUR_TURN "It is not your turn"
  else if player.state ≠ .IN_JAIL then VFailure .NOT_IN_JAIL "You are not in jail"
  else if player.jailCards ≤ 0 then
    VFailure .INVALID_PROPERTY "You do not have a Get Out of Jail Free card"
  else VSuccess

/-- RuleEngine.validate_end_turn. -/
def validateEndTurn (player : Player) (currentId : String) (phase : GamePhase) : ValidationResult :=
  if player.id ≠ currentId then VFailure .NOT_YOUR_TURN "It is not your turn"
  else if phase = .PRE_ROLL then VFailure .MUST_ROLL "You must roll the dice first"
  else if phase = .PROPERTY_DECISION then
    VFailure .INVALID_PROPERTY "You must decide on the property first"
  else if phase = .PAYING_RENT then VFailure .INSUFFICIENT_FUNDS "You must pay rent first"
  else VSuccess

/-! The Game aggregate, from game.py.  The append-only event log is omitted:
no claim refers to it.  Dice rolls and deck shuffles are inputs. -/

/-- Game state: board, roster, turn machinery, bank inventory and decks.
RuleEngine's counters are Python ints, so they are embedded as integers. -/
structure GameState where
  board : Board
  players : List Player
  playerOrder : List String
  currentPlayerIndex : Nat := 0
  phase : GamePhase := .WAITING
  turnNumber : Nat := 0
  lastDiceRoll : Option DiceResult := none
  winnerId : Option String := none
  housesAvailable : Int := 32
  hotelsAvailable : Int := 12
  chance : CardDeck
  communityChest : CardDeck
  deriving DecidableEq

/-- Dict lookup self.players.get(pid). -/
def findPlayer (s : GameState) (pid : String) : Option Player :=
  s.players.find? (fun p => p.id == pid)

/-- In-place mutation of the player object stored under an id. -/
def updatePlayer (s : GameState) (pid : String) (f : Player → Player) : GameState :=
  { s with players := s.players.map (fun p => if p.id = pid then f p else p) }

/-- In-place mutation of the property stored at a board position. -/
def setPropB (b : Board) (pos : Nat) (f : Property → Property) : Board :=
  b.map (fun p => if p.position = pos then f p else p)

/-- In-place mutation of the property at a position of the game board. -/
def setProp (s : GameState) (pos : Nat) (f : Property → Property) : GameState :=
  { s with board := setPropB s.board pos f }

/-- Game.current_player. -/
def currentPlayer (s : GameState) : Option Player :=
  match s.playerOrder.get? s.currentPlayerIndex with
  | none => none
  | some pid => findPlayer s pid

/-- The expression (self.current_player.id if self.current_player else "")
used by every validation call. -/
def currentPlayerIdStr (s : GameState) : String :=
  match currentPlayer s with
  | some p => p.id
  | none => ""

/-- Game.active_players. -/
def activePlayers (s : GameState) : List Player :=
  s.players.filter (fun p => p.state != PlayerState.BANKRUPT)

/-- Game.is_game_over. -/
def isGameOver (s : GameState) : Bool :=
  decide ((activePlayers s).length ≤ 1) && decide (s.phase ≠ .WAITING)

/-- Result of a mutating Game method: the (success, message) pair the Python
method returns, plus the state after the call. -/
structure StepRes where
  ok : Bool
  msg : String
  st : GameState
  deriving DecidableEq

/-- Property.build_house (mutation part). -/
def propBuildHouse (p : Property) : Property :=
  if ¬ p.canBeDeveloped then p
  else if 4 ≤ p.houses ∨ p.hasHotel then p
  else { p with houses := p.houses + 1 }

/-- Property.build_hotel (mutation part). -/
def propBuildHotel (p : Property) : Property :=
  if ¬ p.canBeDeveloped then p
  else if p.houses ≠ 4 ∨ p.hasHotel then p
  else { p with houses := 0, hasHotel := true }

/-- Property.sell_house: mutated property and money received. -/
def propSellHouse (p : Property) : Property × Nat :=
  if p.houses ≤ 0 then (p, 0)
  else ({ p with houses := p.houses - 1 }, p.houseCost.getD 0 / 2)

/-- Property.sell_hotel: converts back to 4 houses, returns half house cost. -/
def propSellHotel (p : Property) : Property × Nat :=
  if ¬ p.hasHotel then (p, 0)
  else ({ p with hasHotel := false, houses := 4 }, p.houseCost.getD 0 / 2)

/-- Property.mortgage: mutated property and money received. -/
def propMortgage (p : Property) : Property × Nat :=
  if p.isMortgaged ∨ 0 < p.houses ∨ p.hasHotel then (p, 0)
  else ({ p with isMortgaged := true }, p.mortgageValue)

/-- Property.unmortgage (mutation part). -/
def propUnmortgage (p : Property) : Property :=
  if ¬ p.isMortgaged then p else { p with isMortgaged := false }

/-- RuleEngine.use_house. -/
def useHouse (s : GameState) : GameState :=
  if 0 < s.housesAvailable then { s with housesAvailable := s.housesAvailable - 1 } else s

/-- RuleEngine.return_house. -/
def returnHouse (s : GameState) : GameState :=
  { s with housesAvailable := s.housesAvailable + 1 }

/-- RuleEngine.use_hotel: consumes a hotel and returns the 4 houses. -/
def useHotel (s : GameState) : GameState :=
  if 0 < s.hotelsAvailable then
    { s with hotelsAvailable := s.hotelsAvailable - 1, housesAvailable := s.housesAvailable + 4 }
  else s

/-- RuleEngine.return_hotel: returns a hotel and takes back 4 houses.  There
is no check that 4 houses are actually available. -/
def returnHotel (s : GameState) : GameState :=
  { s with hotelsAvailable := s.hotelsAvailable + 1, housesAvailable := s.housesAvailable - 4 }

/-- RuleEngine.get_nearest_utility. -/
def getNearestUtility (position : Nat) : Nat :=
  match ((List.range 39).map (fun i => (position + (i + 1)) % 40)).find?
      (fun cp => cp == 12 || cp == 28) with
  | some cp => cp
  | none => 12

/-- RuleEngine.get_nearest_railroad. -/
def getNearestRailroad (position : Nat) : Nat :=
  match ((List.range 39).map (fun i => (position + (i + 1)) % 40)).find?
      (fun cp => cp == 5 || cp == 15 || cp == 25 || cp == 35) with
  | some cp => cp
  | none => 5

/-- Game._handle_property_landing. -/
def handlePropertyLanding (s : GameState) (pid : String) (d : DiceResult) : StepRes :=
  match findPlayer s pid with
  | none => ⟨true, "", s⟩
  | some player =>
    match getProperty s.board player.position with
    | none => ⟨true, "Unknown space", { s with phase := .POST_ROLL }⟩
    | some prop =>
        if ¬ prop.isOwned then
          ⟨true, "Property is available", { s with phase := .PROPERTY_DECISION }⟩
        else if prop.ownerId = some pid then
          ⟨true, "Welcome home", { s with phase := .POST_ROLL }⟩
        else
          let rent := boardCalculateRent s.board player.position d.total (some pid)
          if rent = 0 then
            ⟨true, "Property is mortgaged - no rent due", { s with phase := .POST_ROLL }⟩
          else
            match prop.ownerId with
            | none => ⟨true, "", s⟩
            | some ownerId =>
                if player.canAfford rent then
                  let s := updatePlayer s pid (fun p => p.removeMoney rent)
                  let s := match findPlayer s ownerId with
                    | some _ => updatePlayer s ownerId (fun p => p.addMoney rent)
                    | none => s
                  ⟨true, "Paid rent", { s with phase := .POST_ROLL }⟩
                else ⟨true, "Owe rent - raise funds", { s with phase := .PAYING_RENT }⟩

mutual

/-- Game._handle_landing.  The fuel argument bounds the card-driven
move-and-land recursion (cards can chain at most a few landings; every
theorem quantifies over all fuels). -/
def handleLanding (sh : List Card → List Card) : Nat → GameState → String → DiceResult → StepRes
  | 0, s, _, _ => ⟨true, "", s⟩
  | Nat.succ fuel, s, pid, d =>
    match findPlayer s pid with
    | none => ⟨true, "", s⟩
    | some player =>
      match spaceTypeAt player.position with
      | .GO => ⟨true, "Landed on GO!", { s with phase := .POST_ROLL }⟩
      | .JAIL => ⟨true, "Just visiting jail", { s with phase := .POST_ROLL }⟩
      | .FREE_PARKING => ⟨true, "Free Parking - take a rest!", { s with phase := .POST_ROLL }⟩
      | .GO_TO_JAIL =>
          let s := updatePlayer s pid Player.sendToJail
          ⟨true, "Go to Jail!", { s with phase := .POST_ROLL }⟩
      | .TAX =>
          let taxAmount := spaceCostAt player.position
          if player.canAfford taxAmount then
            ⟨true, "Paid taxes",
              { updatePlayer s pid (fun p => p.removeMoney taxAmount) with phase := .POST_ROLL }⟩
          else ⟨true, "Must pay taxes", { s with phase := .PAYING_RENT }⟩
      | .CHANCE => handleCard sh fuel s pid .CHANCE d
      | .COMMUNITY_CHEST => handleCard sh fuel s pid .COMMUNITY_CHEST d
      | .PROPERTY => handlePropertyLanding s pid d
      | .RAILROAD => handlePropertyLanding s pid d
      | .UTILITY => handlePropertyLanding s pid d

/-- Game._handle_card: draw from the corresponding deck, then execute. -/
def handleCard (sh : List Card → List Card) : Nat → GameState → String → CardType → DiceResult → StepRes
  | 0, s, _, _, _ => ⟨true, "", s⟩
  | Nat.succ fuel, s, pid, ct, d =>
    let deck := match ct with
      | .CHANCE => s.chance
      | .COMMUNITY_CHEST => s.communityChest
    match deckDraw sh deck with
    | none => ⟨true, "", s⟩
    | some (card, deck) =>
        let s := match ct with
          | .CHANCE => { s with chance := deck }
          | .COMMUNITY_CHEST => { s with communityChest := deck }
        executeCard sh fuel s pid card d

/-- Game._execute_card. -/
def executeCard (sh : List Card → List Card) : Nat → GameState → String → Card → DiceResult → StepRes
  | 0, s, _, _, _ => ⟨true, "", s⟩
  | Nat.succ fuel, s, pid, card, d =>
    match findPlayer s pid with
    | none => ⟨true, "", s⟩
    | some player =>
      match card.action with
      | .COLLECT_MONEY =>
          let s := updatePlayer s pid (fun p => p.addMoney card.value)
          ⟨true, card.text, { s with phase := .POST_ROLL }⟩
      | .PAY_MONEY =>
          if player.canAfford card.value then
            let s := updatePlayer s pid (fun p => p.removeMoney card.value)
            ⟨true, card.text, { s with phase := .POST_ROLL }⟩
          else ⟨true, card.text, { s with phase := .PAYING_RENT }⟩
      | .COLLECT_FROM_PLAYERS =>
          let r := s.players.foldl (fun (acc : Int × List Player) q =>
            if q.state ≠ .BANKRUPT ∧ q.id ≠ pid then
              let amount := min card.value q.money
              (acc.1 + amount, acc.2 ++ [q.removeMoney amount])
            else (acc.1, acc.2 ++ [q])) (0, [])
          let s := { s with players := r.2 }
          let s := updatePlayer s pid (fun p => p.addMoney r.1)
          ⟨true, card.text, { s with phase := .POST_ROLL }⟩
      | .PAY_TO_PLAYERS =>
          let totalOwed := card.value * (((activePlayers s).length : Int) - 1)
          if player.canAfford totalOwed then
            let s := updatePlayer s pid (fun p => p.removeMoney totalOwed)
            let s := { s with players := s.players.map (fun (q : Player) =>
              if q.state ≠ PlayerState.BANKRUPT ∧ q.id ≠ pid then q.addMoney card.value else q) }
            ⟨true, card.text, { s with phase := .POST_ROLL }⟩
          else ⟨true, card.text, { s with phase := .PAYING_RENT }⟩
      | .MOVE_TO =>
          let newPos : Nat :=
            if card.value = -1 then getNearestUtility player.position
            else if card.value = -2 then getNearestRailroad player.position
            else card.value.toNat
          let s := updatePlayer s pid (fun p => (p.moveTo newPos true).1)
          handleLanding sh fuel s pid d
      | .MOVE_BACK =>
          let newPos := (((player.position : Int) - card.value) % 40).toNat
          let s := updatePlayer s pid (fun p => (p.moveTo newPos false).1)
          handleLanding sh fuel s pid d
      | .GO_TO_JAIL =>
          let s := updatePlayer s pid Player.sendToJail
          ⟨true, card.text, { s with phase := .POST_ROLL }⟩
      | .GET_OUT_OF_JAIL =>
          let s := updatePlayer s pid (fun p => { p with jailCards := p.jailCards + 1 })
          ⟨true, card.text, { s with phase := .POST_ROLL }⟩
      | .REPAIRS =>
          let totalCost : Nat := player.properties.foldl (fun acc pos =>
            match getProperty s.board pos with
            | some prop => acc + prop.houses * card.perHouse + (if prop.hasHotel then card.perHotel else 0)
            | none => acc) 0
          if player.canAfford totalCost then
            let s := updatePlayer s pid (fun p => p.removeMoney totalCost)
            ⟨true, card.text, { s with phase := .POST_ROLL }⟩
          else ⟨true, card.text, { s with phase := .PAYING_RENT }⟩
      | .MOVE_FORWARD =>
          ⟨true, card.text, { s with phase := .POST_ROLL }⟩

end

/-- Game._move_player. -/
def movePlayer (sh : List Card → List Card) (fuel : Nat) (s : GameState)
    (pid : String) (spaces : Nat) (d : DiceResult) : StepRes :=
  match findPlayer s pid with
  | none => ⟨true, "", s⟩
  | some _ =>
      let s := updatePlayer s pid (fun p => (p.moveForward spaces).1)
      handleLanding sh fuel s pid d

/-- Game._handle_jail_roll. -/
def handleJailRoll (sh : List Card → List Card) (fuel : Nat) (s : GameState)
    (pid : String) (d : DiceResult) : StepRes :=
  match findPlayer s pid with
  | none => ⟨true, "", s⟩
  | some player =>
      if d.isDouble then
        let s := updatePlayer s pid Player.releaseFromJail
        movePlayer sh fuel s pid d.total d
      else if 3 ≤ player.jailTurns then
        if player.canAfford 50 then
          let s := updatePlayer s pid (fun p => (p.removeMoney 50).releaseFromJail)
          movePlayer sh fuel s pid d.total d
        else ⟨true, "Must pay bail - sell assets or go bankrupt", { s with phase := .PAYING_RENT }⟩
      else ⟨true, "No doubles.", { s with phase := .POST_ROLL }⟩

/-- Game.roll_dice, with the dice result an input. -/
def rollDice (sh : List Card → List Card) (fuel : Nat) (s : GameState)
    (pid : String) (d : DiceResult) : StepRes :=
  match findPlayer s pid with
  | none => ⟨false, "Player not found", s⟩
  | some player =>
      let v := validateRollDice player (currentPlayerIdStr s) s.phase
      if v.valid then
        let s := { s with lastDiceRoll := some d }
        let s := updatePlayer s pid (fun p => { p with hasRolled := true })
        if player.state = .IN_JAIL then handleJailRoll sh fuel s pid d
        else if d.isDouble then
          let s := updatePlayer s pid (fun p => { p with consecutiveDoubles := p.consecutiveDoubles + 1 })
          if 3 ≤ player.consecutiveDoubles + 1 then
            let s := updatePlayer s pid Player.sendToJail
            ⟨true, "Three doubles! Go to jail!", { s with phase := .POST_ROLL }⟩
          else movePlayer sh fuel s pid d.total d
        else
          let s := updatePlayer s pid (fun p => { p with consecutiveDoubles := 0 })
          movePlayer sh fuel s pid d.total d
      else ⟨false, v.message, s⟩

/-- Game.buy_property. -/
def buyProperty (s : GameState) (pid : String) : StepRes :=
  match findPlayer s pid with
  | none => ⟨false, "Player not found", s⟩
  | some player =>
      let v := validateBuyProperty s.board player player.position (currentPlayerIdStr s) s.phase
      if v.valid then
        match getProperty s.board player.position with
        | none => ⟨false, "", s⟩
        | some prop =>
            let s := updatePlayer s pid (fun p => p.removeMoney prop.cost)
            let s := setProp s prop.position (fun q => { q with ownerId := some pid })
            let s := updatePlayer s pid (fun p => p.addProperty prop.position)
            ⟨true, "Bought property", { s with phase := .POST_ROLL }⟩
      else ⟨false, v.message, s⟩

/-- Game.build_house. -/
def buildHouse (s : GameState) (pid : String) (position : Nat) : StepRes :=
  match findPlayer s pid with
  | none => ⟨false, "Player not found", s⟩
  | some player =>
      let v := validateBuildHouse s.board s.housesAvailable player position (currentPlayerIdStr s)
      if v.valid then
        match getProperty s.board position with
        | none => ⟨false, "", s⟩
        | some prop =>
            let s := updatePlayer s pid (fun p => p.removeMoney (prop.houseCost.getD 0))
            let s := setProp s position propBuildHouse
            let s := useHouse s
            ⟨true, "Built house", s⟩
      else ⟨false, v.message, s⟩

/-- Game.build_hotel. -/
def buildHotel (s : GameState) (pid : String) (position : Nat) : StepRes :=
  match findPlayer s pid with
  | none => ⟨false, "Player not found", s⟩
  | some player =>
      let v := validateBuildHotel s.board s.hotelsAvailable player position (currentPlayerIdStr s)
      if v.valid then
        match getProperty s.board position with
        | none => ⟨false, "", s⟩
        | some prop =>
            let s := updatePlayer s pid (fun p => p.removeMoney (prop.houseCost.getD 0))
            let s := setProp s position propBuildHotel
            let s := useHotel s
            ⟨true, "Built hotel", s⟩
      else ⟨false, v.message, s⟩

/-- Game.sell_building. -/
def sellBuilding (s : GameState) (pid : String) (position : Nat) : StepRes :=
  match findPlayer s pid with
  | none => ⟨false, "Player not found", s⟩
  | some player =>
      let v := validateSellHouse s.board player position
      if v.valid then
        match getProperty s.board position with
        | none => ⟨false, "", s⟩
        | some prop =>
            if prop.hasHotel then
              let refund := (propSellHotel prop).2
              let s := setProp s position (fun q => (propSellHotel q).1)
              let s := returnHotel s
              let s := updatePlayer s pid (fun p => p.addMoney refund)
              ⟨true, "Sold hotel", s⟩
            else
              let refund := (propSellHouse prop).2
              let s := setProp s position (fun q => (propSellHouse q).1)
              let s := returnHouse s
              let s := updatePlayer s pid (fun p => p.addMoney refund)
              ⟨true, "Sold house", s⟩
      else ⟨false, v.message, s⟩

/-- Game.mortgage_property. -/
def mortgageProperty (s : GameState) (pid : String) (position : Nat) : StepRes :=
  match findPlayer s pid with
  | none => ⟨false, "Player not found", s⟩
  | some player =>
      let v := validateMortgage s.board player position
      if v.valid then
        match getProperty s.board position with
        | none => ⟨false, "", s⟩
        | some prop =>
            let s := setProp s position (fun q => (propMortgage q).1)
            let s := updatePlayer s pid (fun p => p.addMoney (propMortgage prop).2)
            ⟨true, "Mortgaged property", s⟩
      else ⟨false, v.message, s⟩

/-- Game.unmortgage_property. -/
def unmortgageProperty (s : GameState) (pid : String) (position : Nat) : StepRes :=
  match findPlayer s pid with
  | none => ⟨false, "Player not found", s⟩
  | some player =>
      let v := validateUnmortgage s.board player position
      if v.valid then
        match getProperty s.board position with
        | none => ⟨false, "", s⟩
        | some prop =>
            let s := updatePlayer s pid (fun p => p.removeMoney prop.unmortgageCost)
            let s := setProp s position propUnmortgage
            ⟨true, "Unmortgaged property", s⟩
      else ⟨false, v.message, s⟩

/-- Game.pay_bail. -/
def payBail (s : GameState) (pid : String) : StepRes :=
  match findPlayer s pid with
  | none => ⟨false, "Player not found", s⟩
  | some player =>
      let v := validatePayBail player (currentPlayerIdStr s)
      if v.valid then
        let s := updatePlayer s pid (fun p => (p.removeMoney 50).releaseFromJail)
        ⟨true, "Paid bail", s⟩
      else ⟨false, v.message, s⟩

/-- Game.use_jail_card: decrement the counter, release, and return a fresh
Get Out of Jail Free card to the Chance deck, whatever deck the card was
drawn from (the source comment reads "# Simplified"). -/
def useJailCard (s : GameState) (pid : String) : StepRes :=
  match findPlayer s pid with
  | none => ⟨false, "Player not found", s⟩
  | some player =>
      let v := validateUseJailCard player (currentPlayerIdStr s)
      if v.valid then
        let s := updatePlayer s pid
          (fun p => Player.releaseFromJail { p with jailCards := p.jailCards - 1 })
        let s := { s with chance := deckReturnCard s.chance (gojfCard .CHANCE) }
        ⟨true, "Used Get Out of Jail Free card", s⟩
      else ⟨false, v.message, s⟩

/-- The index-advancing loop of Game._advance_turn: step forward, wrapping,
until either the start index comes around again or a non-bankrupt player is
found.  The fuel is the order length, enough for a full circle. -/
def advanceLoop (s : GameState) (startIdx : Nat) : Nat → Nat → Nat
  | idx, 0 => idx
  | idx, Nat.succ fuel =>
      let idx2 := (idx + 1) % s.playerOrder.length
      if idx2 = startIdx then idx2
      else
        match (s.playerOrder.get? idx2).bind (fun q => findPlayer s q) with
        | some np => if np.state ≠ .BANKRUPT then idx2 else advanceLoop s startIdx idx2 fuel
        | none => advanceLoop s startIdx idx2 fuel

/-- Game._advance_turn. -/
def advanceTurn (s : GameState) : GameState :=
  if s.playerOrder.isEmpty then s
  else
    let idx := advanceLoop s s.currentPlayerIndex s.currentPlayerIndex s.playerOrder.length
    let s := { s with
      currentPlayerIndex := idx
      turnNumber := s.turnNumber + 1
      phase := .PRE_ROLL }
    match currentPlayer s with
    | none => s
    | some cp =>
        let s := updatePlayer s cp.id Player.resetTurn
        if cp.state = .IN_JAIL then
          updatePlayer s cp.id (fun p => { p with jailTurns := p.jailTurns + 1 })
        else s

/-- Game._end_game. -/
def endGame (s : GameState) : GameState :=
  let s := { s with phase := .GAME_OVER }
  match activePlayers s with
  | w :: _ => { s with winnerId := some w.id }
  | [] => s

/-- Game.end_turn. -/
def endTurn (s : GameState) (pid : String) : StepRes :=
  match findPlayer s pid with
  | none => ⟨false, "Player not found", s⟩
  | some player =>
      let v := validateEndTurn player (currentPlayerIdStr s) s.phase
      if v.valid then
        let lastWasDouble : Bool := match s.lastDiceRoll with
          | some r => r.isDouble
          | none => false
        if lastWasDouble ∧ player.consecutiveDoubles < 3 ∧ player.state ≠ .IN_JAIL then
          let s := { s with phase := .PRE_ROLL }
          let s := updatePlayer s pid (fun p => { p with hasRolled := false })
          ⟨true, "Doubles! Roll again", s⟩
        else if isGameOver s then ⟨true, "Game Over!", endGame s⟩
        else ⟨true, "Turn ended", advanceTurn s⟩
      else ⟨false, v.message, s⟩

/-- The while loop in _handle_bankruptcy that sells the houses of one
property back to the bank one at a time (the refund is discarded). -/
def liquidateHousesLoop : Nat → Int → Int
  | 0, avail => avail
  | Nat.succ n, avail => liquidateHousesLoop n (avail + 1)

/-- Liquidation of one property during creditor-less bankruptcy: sell the
hotel (if any) and then every house back to the bank, then clear owner and
mortgage flags. -/
def liquidateProp (s : GameState) (pos : Nat) : GameState :=
  match getProperty s.board pos with
  | none => s
  | some prop =>
      let s := if prop.hasHotel then
          let s := setProp s pos (fun q => (propSellHotel q).1)
          returnHotel s
        else s
      match getProperty s.board pos with
      | none => s
      | some prop2 =>
          let s := { s with housesAvailable := liquidateHousesLoop prop2.houses s.housesAvailable }
          let s := setProp s pos (fun q => { q with houses := 0, ownerId := none, isMortgaged := false })
          s

/-- Transfer of one property position to the creditor during bankruptcy:
set the owner and record the position in the creditor's property set. -/
def transferPropStep (cid : String) (s : GameState) (pos : Nat) : GameState :=
  match getProperty s.board pos with
  | none => s
  | some _ =>
      let s := setProp s pos (fun q => { q with ownerId := some cid })
      updatePlayer s cid (fun c => c.addProperty pos)

/-- Game._handle_bankruptcy. -/
def handleBankruptcy (s : GameState) (pid : String) (creditorId : Option String) : GameState :=
  match findPlayer s pid with
  | none => s
  | some player =>
      let s :=
        match creditorId.bind (fun cid => findPlayer s cid) with
        | some creditor =>
            let s := updatePlayer s creditor.id (fun c =>
              { c with
                money := c.money + player.money
                jailCards := c.jailCards + player.jailCards })
            player.properties.foldl (transferPropStep creditor.id) s
        | none =>
            player.properties.foldl (fun s pos => liquidateProp s pos) s
      updatePlayer s pid Player.declareBankrupt

/-- Game.declare_bankruptcy. -/
def declareBankruptcy (s : GameState) (pid : String) (creditorId : Option String) : StepRes :=
  match findPlayer s pid with
  | none => ⟨false, "Player not found", s⟩
  | some _ =>
      let s := handleBankruptcy s pid creditorId
      if isGameOver s then ⟨true, "Game Over!", endGame s⟩
      else
        if (match currentPlayer s with | some cp => cp.id == pid | none => false) then
          ⟨true, "Declared bankruptcy", advanceTurn s⟩
        else ⟨true, "Declared bankruptcy", s⟩

/-- The ten public gameplay operations of claim C8. -/
inductive Act where
  | rollDiceA (pid : String) (d : DiceResult)
  | buyPropertyA (pid : String)
  | buildHouseA (pid : String) (position : Nat)
  | buildHotelA (pid : String) (position : Nat)
  | sellBuildingA (pid : String) (position : Nat)
  | mortgageA (pid : String) (position : Nat)
  | unmortgageA (pid : String) (position : Nat)
  | payBailA (pid : String)
  | useJailCardA (pid : String)
  | endTurnA (pid : String)
  deriving DecidableEq

/-- Dispatch of one gameplay operation. -/
def step (sh : List Card → List Card) (fuel : Nat) (s : GameState) : Act → StepRes
  | .rollDiceA pid d => rollDice sh fuel s pid d
  | .buyPropertyA pid => buyProperty s pid
  | .buildHouseA pid pos => buildHouse s pid pos
  | .buildHotelA pid pos => buildHotel s pid pos
  | .sellBuildingA pid pos => sellBuilding s pid pos
  | .mortgageA pid pos => mortgageProperty s pid pos
  | .unmortgageA pid pos => unmortgageProperty s pid pos
  | .payBailA pid => payBail s pid
  | .useJailCardA pid => useJailCard s pid
  | .endTurnA pid => endTurn s pid

/-! Claim C5: end_turn advances to the next non-bankrupt player, increments
the turn counter and resets the per-turn flags. -/

/-- An empty deck, for concrete states whose scenario never draws. -/
def emptyDeck (ct : CardType) : CardDeck := ⟨ct, [], []⟩

/-- Current player for the C5 scenario: has rolled a non-double. -/
def c5A : Player := { name := "Alice", id := "A", hasRolled := true }

/-- Next player for the C5 scenario: ended the previous turn with a
consecutive-doubles count of 2. -/
def c5B : Player := { name := "Bob", id := "B", consecutiveDoubles := 2 }

/-- The C5 scenario: A's turn just finished (POST_ROLL, last roll 3-4). -/
def c5State : GameState :=
  { board := freshBoard, players := [c5A, c5B], playerOrder := ["A", "B"],
    currentPlayerIndex := 0, phase := .POST_ROLL, turnNumber := 5,
    lastDiceRoll := some ⟨3, 4⟩,
    chance := emptyDeck .CHANCE, communityChest := emptyDeck .COMMUNITY_CHEST }

/-- Claim C5, refuted at a concrete input.  end_turn succeeds, advances to
the next non-bankrupt player and increments the turn counter, and the new
current player's has-rolled flag is false — but the consecutive-doubles
counter is NOT reset: Player.reset_turn guards the assignment with
"if not self.consecutive_doubles", which only fires when the counter is
already 0, so Bob's counter stays at 2 where the claim requires 0. -/
theorem end_turn_does_not_reset_doubles :
    (endTurn c5State "A").ok = true ∧
    (endTurn c5State "A").st.turnNumber = 6 ∧
    (endTurn c5State "A").st.currentPlayerIndex = 1 ∧
    (currentPlayer (endTurn c5State "A").st).map Player.hasRolled = some false ∧
    (currentPlayer (endTurn c5State "A").st).map Player.consecutiveDoubles = some 2 := by
  decide

/-! Claim C8: a gameplay call that fails validation leaves the whole game
state unchanged.  The landing/card-execution paths always report success,
so a false result can only come from the pre-mutation validation checks. -/

/-- Landing on a property never reports failure. -/
theorem handlePropertyLanding_ok (s : GameState) (pid : String) (d : DiceResult) :
    (handlePropertyLanding s pid d).ok = true := by
  unfold handlePropertyLanding
  dsimp only
  repeat' split
  all_goals rfl

/-- The landing, card-drawing and card-execution paths never report
failure, at any fuel. -/
theorem landingExec_ok (sh : List Card → List Card) : ∀ fuel : Nat,
    (∀ s pid d, (handleLanding sh fuel s pid d).ok = true) ∧
    (∀ s pid ct d, (handleCard sh fuel s pid ct d).ok = true) ∧
    (∀ s pid c d, (executeCard sh fuel s pid c d).ok = true) := by
  intro fuel
  induction fuel with
  | zero => exact ⟨fun s pid d => rfl, fun s pid ct d => rfl, fun s pid c d => rfl⟩
  | succ n ih =>
      refine ⟨fun s pid d => ?_, fun s pid ct d => ?_, fun s pid c d => ?_⟩
      · unfold handleLanding
        dsimp only
        repeat' split
        all_goals first
          | rfl
          | exact ih.2.1 _ _ _ _
          | exact handlePropertyLanding_ok _ _ _
      · unfold handleCard
        dsimp only
        repeat' split
        all_goals first | rfl | exact ih.2.2 _ _ _ _
      · unfold executeCard
        dsimp only
        repeat' split
        all_goals first | rfl | exact ih.1 _ _ _

/-- Game._move_player never reports failure. -/
theorem movePlayer_ok (sh : List Card → List Card) (fuel : Nat) (s : GameState)
    (pid : String) (spaces : Nat) (d : DiceResult) :
    (movePlayer sh fuel s pid spaces d).ok = true := by
  unfold movePlayer
  split
  · rfl
  · exact (landingExec_ok sh fuel).1 _ _ _

/-- Game._handle_jail_roll never reports failure. -/
theorem handleJailRoll_ok (sh : List Card → List Card) (fuel : Nat) (s : GameState)
    (pid : String) (d : DiceResult) :
    (handleJailRoll sh fuel s pid d).ok = true := by
  unfold handleJailRoll
  dsimp only
  repeat' split
  all_goals first | rfl | exact movePlayer_ok _ _ _ _ _ _

/-- Game.roll_dice returning failure leaves the state unchanged. -/
theorem rollDice_fail_eq (sh : List Card → List Card) (fuel : Nat) (s : GameState)
    (pid : String) (d : DiceResult) (h : (rollDice sh fuel s pid d).ok = false) :
    (rollDice sh fuel s pid d).st = s := by
  unfold rollDice at h ⊢
  cases hf : findPlayer s pid with
  | none => simp [hf]
  | some player =>
      simp only [hf] at h ⊢
      by_cases hv : (validateRollDice player (currentPlayerIdStr s) s.phase).valid = true
      · exfalso
        simp only [hv, if_true] at h
        split at h
        · rw [handleJailRoll_ok] at h; cases h
        · split at h
          · split at h
            · cases h
            · rw [movePlayer_ok] at h; cases h
          · rw [movePlayer_ok] at h; cases h
      · simp [hv]

/-- Game.buy_property returning failure leaves the state unchanged. -/
theorem buyProperty_fail_eq (s : GameState) (pid : String)
    (h : (buyProperty s pid).ok = false) : (buyProperty s pid).st = s := by
  unfold buyProperty at h ⊢
  cases hf : findPlayer s pid with
  | none => simp [hf]
  | some player =>
      simp only [hf] at h ⊢
      by_cases hv : (validateBuyProperty s.board player player.position
          (currentPlayerIdStr s) s.phase).valid = true
      · simp only [hv, if_true] at h ⊢
        cases hp : getProperty s.board player.position with
        | none => simp [hp]
        | some prop => simp [hp] at h
      · simp [hv]

/-- Game.build_house returning failure leaves the state unchanged. -/
theorem buildHouse_fail_eq (s : GameState) (pid : String) (pos : Nat)
    (h : (buildHouse s pid pos).ok = false) : (buildHouse s pid pos).st = s := by
  unfold buildHouse at h ⊢
  cases hf : findPlayer s pid with
  | none => simp [hf]
  | some player =>
      simp only [hf] at h ⊢
      by_cases hv : (validateBuildHouse s.board s.housesAvailable player pos
          (currentPlayerIdStr s)).valid = true
      · simp only [hv, if_true] at h ⊢
        cases hp : getProperty s.board pos with
        | none => simp [hp]
        | some prop => simp [hp] at h
      · simp [hv]

/-- Game.build_hotel returning failure leaves the state unchanged. -/
theorem buildHotel_fail_eq (s : GameState) (pid : String) (pos : Nat)
    (h : (buildHotel s pid pos).ok = false) : (buildHotel s pid pos).st = s := by
  unfold buildHotel at h ⊢
  cases hf : findPlayer s pid with
  | none => simp [hf]
  | some player =>
      simp only [hf] at h ⊢
      by_cases hv : (validateBuildHotel s.board s.hotelsAvailable player pos
          (currentPlayerIdStr s)).valid = true
      · simp only [hv, if_true] at h ⊢
        cases hp : getProperty s.board pos with
        | none => simp [hp]
        | some prop => simp [hp] at h
      · simp [hv]

/-- Game.sell_building returning failure leaves the state unchanged. -/
theorem sellBuilding_fail_eq (s : GameState) (pid : String) (pos : Nat)
    (h : (sellBuilding s pid pos).ok = false) : (sellBuilding s pid pos).st = s := by
  unfold sellBuilding at h ⊢
  cases hf : findPlayer s pid with
  | none => simp [hf]
  | some player =>
      simp only [hf] at h ⊢
      by_cases hv : (validateSellHouse s.board player pos).valid = true
      · simp only [hv, if_true] at h ⊢
        cases hp : getProperty s.board pos with
        | none => simp [hp]
        | some prop =>
            simp only [hp] at h
            split at h
            · cases h
            · cases h
      · simp [hv]

/-- Game.mortgage_property returning failure leaves the state unchanged. -/
theorem mortgage_fail_eq (s : GameState) (pid : String) (pos : Nat)
    (h : (mortgageProperty s pid pos).ok = false) : (mortgageProperty s pid pos).st = s := by
  unfold mortgageProperty at h ⊢
  cases hf : findPlayer s pid with
  | none => simp [hf]
  | some player =>
      simp only [hf] at h ⊢
      by_cases hv : (validateMortgage s.board player pos).valid = true
      · simp only [hv, if_true] at h ⊢
        cases hp : getProperty s.board pos with
        | none => simp [hp]
        | some prop => simp [hp] at h
      · simp [hv]

/-- Game.unmortgage_property returning failure leaves the state unchanged. -/
theorem unmortgage_fail_eq (s : GameState) (pid : String) (pos : Nat)
    (h : (unmortgageProperty s pid pos).ok = false) : (unmortgageProperty s pid pos).st = s := by
  unfold unmortgageProperty at h ⊢
  cases hf : findPlayer s pid with
  | none => simp [hf]
  | some player =>
      simp only [hf] at h ⊢
      by_cases hv : (validateUnmortgage s.board player pos).valid = true
      · simp only [hv, if_true] at h ⊢
        cases hp : getProperty s.board pos with
        | none => simp [hp]
        | some prop => simp [hp] at h
      · simp [hv]

/-- Game.pay_bail returning failure leaves the state unchanged. -/
theorem payBail_fail_eq (s : GameState) (pid : String)
    (h : (payBail s pid).ok = false) : (payBail s pid).st = s := by
  unfold payBail at h ⊢
  cases hf : findPlayer s pid with
  | none => simp [hf]
  | some player =>
      simp only [hf] at h ⊢
      by_cases hv : (validatePayBail player (currentPlayerIdStr s)).valid = true
      · simp [hv] at h
      · simp [hv]

/-- Game.use_jail_card returning failure leaves the state unchanged. -/
theorem useJailCard_fail_eq (s : GameState) (pid : String)
    (h : (useJailCard s pid).ok = false) : (useJailCard s pid).st = s := by
  unfold useJailCard at h ⊢
  cases hf : findPlayer s pid with
  | none => simp [hf]
  | some player =>
      simp only [hf] at h ⊢
      by_cases hv : (validateUseJailCard player (currentPlayerIdStr s)).valid = true
      · simp [hv] at h
      · simp [hv]

/-- Game.end_turn returning failure leaves the state unchanged. -/
theorem endTurn_fail_eq (s : GameState) (pid : String)
    (h : (endTurn s pid).ok = false) : (endTurn s pid).st = s := by
  unfold endTurn at h ⊢
  cases hf : findPlayer s pid with
  | none => simp [hf]
  | some player =>
      simp only [hf] at h ⊢
      by_cases hv : (validateEndTurn player (currentPlayerIdStr s) s.phase).valid = true
      · simp only [hv, if_true] at h
        split at h
        · cases h
        · split at h
          · cases h
          · cases h
      · simp [hv]

/-- Claim C8.  Whenever one of the ten gameplay operations returns
success = False because its rule validation failed, the entire game state
(players, board, bank inventory, phase, turn counter) is unchanged. -/
theorem failed_call_leaves_state_unchanged (sh : List Card → List Card) (fuel : Nat)
    (s : GameState) (a : Act) (h : (step sh fuel s a).ok = false) :
    (step sh fuel s a).st = s := by
  cases a with
  | rollDiceA pid d => exact rollDice_fail_eq sh fuel s pid d h
  | buyPropertyA pid => exact buyProperty_fail_eq s pid h
  | buildHouseA pid pos => exact buildHouse_fail_eq s pid pos h
  | buildHotelA pid pos => exact buildHotel_fail_eq s pid pos h
  | sellBuildingA pid pos => exact sellBuilding_fail_eq s pid pos h
  | mortgageA pid pos => exact mortgage_fail_eq s pid pos h
  | unmortgageA pid pos => exact unmortgage_fail_eq s pid pos h
  | payBailA pid => exact payBail_fail_eq s pid h
  | useJailCardA pid => exact useJailCard_fail_eq s pid h
  | endTurnA pid => exact endTurn_fail_eq s pid h

/-- Witness for C8: on the C5 state it is not A's phase to buy (POST_ROLL),
so buy_property fails and the state is untouched. -/
theorem failed_call_leaves_state_unchanged_witness :
    (step (fun l => l) 0 c5State (.buyPropertyA "A")).ok = false ∧
    (step (fun l => l) 0 c5State (.buyPropertyA "A")).st = c5State :=
  ⟨by decide, failed_call_leaves_state_unchanged (fun l => l) 0 c5State (.buyPropertyA "A") (by decide)⟩

/-! Claim C2: the finite house/hotel bank.  Helper lemmas about single
property updates, then preservation statements per operation. -/

/-- Houses standing on the board. -/
def sumHouses (b : Board) : Nat := (b.map Property.houses).sum

/-- Hotels standing on the board. -/
def countHotels (b : Board) : Nat := b.countP (fun p => p.hasHotel)

/-- Structural well-formedness of a board: positions are distinct and a
property carrying a hotel has no houses (build_hotel zeroes them). -/
def boardWF (b : Board) : Prop :=
  (b.map Property.position).Nodup ∧ ∀ p ∈ b, p.hasHotel = true → p.houses = 0

/-- Conservation of the building bank: standing buildings plus the
RuleEngine's counters equal the fixed totals 32 and 12. -/
def bankCons (s : GameState) : Prop :=
  (sumHouses s.board : Int) + s.housesAvailable = 32 ∧
  (countHotels s.board : Int) + s.hotelsAvailable = 12

/-- The bank counters are non-negative. -/
def bankNonneg (s : GameState) : Prop :=
  0 ≤ s.housesAvailable ∧ 0 ≤ s.hotelsAvailable

/-- The bank invariant; together its parts imply the claim's bound that at
most 32 houses and 12 hotels stand on the board. -/
def bankInv (s : GameState) : Prop := boardWF s.board ∧ bankCons s ∧ bankNonneg s

instance : DecidablePred boardWF := fun b => by unfold boardWF; infer_instance

instance : DecidablePred bankInv := fun s => by
  unfold bankInv bankCons bankNonneg; infer_instance

/-- Updating a position that does not occur leaves the board unchanged. -/
theorem setPropB_not_mem (b : Board) (pos : Nat) (f : Property → Property)
    (h : pos ∉ b.map Property.position) : setPropB b pos f = b := by
  induction b with
  | nil => rfl
  | cons a l ih =>
      simp only [List.map_cons, List.mem_cons, not_or] at h
      show (if a.position = pos then f a else a) :: setPropB l pos f = a :: l
      rw [if_neg (fun he => h.1 he.symm), ih h.2]

/-- Positions are unchanged by a position-preserving property update. -/
theorem map_position_setPropB (b : Board) (pos : Nat) (f : Property → Property)
    (hf : ∀ p, (f p).position = p.position) :
    (setPropB b pos f).map Property.position = b.map Property.position := by
  induction b with
  | nil => rfl
  | cons a l ih =>
      show ((if a.position = pos then f a else a) :: setPropB l pos f).map Property.position = _
      by_cases hp : a.position = pos
      · simp only [if_pos hp, List.map_cons, hf, ih]
      · simp only [if_neg hp, List.map_cons, ih]

/-- Membership in an updated board comes from an original member, either
updated or untouched. -/
theorem mem_setPropB (b : Board) (pos : Nat) (f : Property → Property) (q : Property)
    (hq : q ∈ setPropB b pos f) : (∃ p ∈ b, q = f p) ∨ q ∈ b := by
  obtain ⟨p, hp, he⟩ := List.mem_map.mp hq
  by_cases h : p.position = pos
  · exact Or.inl ⟨p, hp, by rw [← he, if_pos h]⟩
  · exact Or.inr (by rw [← he, if_neg h]; exact hp)

/-- Looking up the updated position returns the updated property. -/
theorem getProperty_setPropB (b : Board) (pos : Nat) (f : Property → Property) (p0 : Property)
    (hget : getProperty b pos = some p0) (hf : ∀ p, (f p).position = p.position) :
    getProperty (setPropB b pos f) pos = some (f p0) := by
  induction b with
  | nil => cases hget
  | cons a l ih =>
      by_cases hp : a.position = pos
      · have ha : getProperty (a :: l) pos = some a :=
          List.find?_cons_of_pos _ (by simp [hp])
        rw [ha] at hget
        injection hget with hh
        subst hh
        show getProperty ((if a.position = pos then f a else a) :: setPropB l pos f) pos = _
        rw [if_pos hp]
        exact List.find?_cons_of_pos _ (by simp [hf, hp])
      · have hget' : getProperty l pos = some p0 := by
          unfold getProperty at hget ⊢
          rwa [List.find?_cons_of_neg _ (by simp [hp])] at hget
        show getProperty ((if a.position = pos then f a else a) :: setPropB l pos f) pos = _
        rw [if_neg hp]
        unfold getProperty
        rw [List.find?_cons_of_neg _ (by simp [hp])]
        exact ih hget'

/-- Looking up a different position is unaffected by the update, provided
the update preserves positions. -/
theorem getProperty_setPropB_ne (b : Board) (pos pos2 : Nat) (f : Property → Property)
    (hne : pos2 ≠ pos) (hf : ∀ p, (f p).position = p.position) :
    getProperty (setPropB b pos f) pos2 = getProperty b pos2 := by
  induction b with
  | nil => rfl
  | cons a l ih =>
      show getProperty ((if a.position = pos then f a else a) :: setPropB l pos f) pos2 = _
      by_cases hp : a.position = pos
      · rw [if_pos hp]
        unfold getProperty
        rw [List.find?_cons_of_neg _ (by simp [hf, hp]; exact fun he => hne he.symm),
          List.find?_cons_of_neg _ (by simp [hp]; exact fun he => hne he.symm)]
        exact ih
      · rw [if_neg hp]
        unfold getProperty
        by_cases h2 : a.position = pos2
        · rw [List.find?_cons_of_pos _ (by simp [h2]), List.find?_cons_of_pos _ (by simp [h2])]
        · rw [List.find?_cons_of_neg _ (by simp [h2]), List.find?_cons_of_neg _ (by simp [h2])]
          exact ih

/-- How the standing-building counts change when one property (present,
at a duplicate-free position) is updated. -/
theorem counts_setPropB (b : Board) (pos : Nat) (f : Property → Property) (p0 : Property)
    (hnd : (b.map Property.position).Nodup)
    (hget : getProperty b pos = some p0) :
    sumHouses (setPropB b pos f) + p0.houses = sumHouses b + (f p0).houses ∧
    countHotels (setPropB b pos f) + (if p0.hasHotel then 1 else 0)
      = countHotels b + (if (f p0).hasHotel then 1 else 0) := by
  induction b with
  | nil => cases hget
  | cons a l ih =>
      rw [List.map_cons, List.nodup_cons] at hnd
      by_cases hp : a.position = pos
      · have ha : getProperty (a :: l) pos = some a :=
          List.find?_cons_of_pos _ (by simp [hp])
        rw [ha] at hget
        injection hget with hh
        subst hh
        have hl : setPropB l pos f = l :=
          setPropB_not_mem l pos f (by rw [← hp]; exact hnd.1)
        have hsp : setPropB (a :: l) pos f = f a :: l := by
          show (if a.position = pos then f a else a) :: setPropB l pos f = _
          rw [if_pos hp, hl]
        rw [hsp]
        constructor
        · show (f a).houses + sumHouses l + a.houses = a.houses + sumHouses l + (f a).houses
          omega
        · show countHotels (f a :: l) + _ = countHotels (a :: l) + _
          unfold countHotels
          rw [List.countP_cons, List.countP_cons]
          by_cases h1 : a.hasHotel <;> by_cases h2 : (f a).hasHotel <;>
            simp [h1, h2]
      · have hget' : getProperty l pos = some p0 := by
          unfold getProperty at hget ⊢
          rwa [List.find?_cons_of_neg _ (by simp [hp])] at hget
        obtain ⟨ih1, ih2⟩ := ih hnd.2 hget'
        have hsp : setPropB (a :: l) pos f = a :: setPropB l pos f := by
          show (if a.position = pos then f a else a) :: setPropB l pos f = _
          rw [if_neg hp]
        rw [hsp]
        constructor
        · show a.houses + sumHouses (setPropB l pos f) + p0.houses
            = a.houses + sumHouses l + (f p0).houses
          omega
        · unfold countHotels
          rw [List.countP_cons, List.countP_cons]
          unfold countHotels at ih2
          omega

/-- boardWF is preserved when one property is updated by a map that keeps
positions and respects the hotel/houses discipline. -/
theorem boardWF_setPropB (b : Board) (pos : Nat) (f : Property → Property)
    (hwf : boardWF b)
    (hf : ∀ p, (f p).position = p.position)
    (hfh : ∀ p ∈ b, (p.hasHotel = true → p.houses = 0) →
      (f p).hasHotel = true → (f p).houses = 0) :
    boardWF (setPropB b pos f) := by
  constructor
  · rw [map_position_setPropB b pos f hf]
    exact hwf.1
  · intro q hq hqh
    rcases mem_setPropB b pos f q hq with ⟨p, hp, rfl⟩ | hq2
    · exact hfh p hp (hwf.2 p hp) hqh
    · exact hwf.2 q hq2 hqh

/-- Facts recoverable from a passing can_build_house check. -/
theorem canBuildHouse_developed (b : Board) (pos : Nat) (pid : String) (prop : Property)
    (hp : getProperty b pos = some prop) (h : canBuildHouse b pos pid = true) :
    prop.canBeDeveloped = true := by
  unfold canBuildHouse at h
  rw [hp] at h
  dsimp only at h
  split_ifs at h with h1 h2 h3 h4
  all_goals try simp at h
  all_goals exact h2

set_option maxHeartbeats 1000000 in
/-- Facts recoverable from a passing build_house validation. -/
theorem validateBuildHouse_facts (b : Board) (ha : Int) (player : Player) (pos : Nat)
    (cur : String) (prop : Property)
    (hp : getProperty b pos = some prop)
    (h : (validateBuildHouse b ha player pos cur).valid = true) :
    prop.canBeDeveloped = true ∧ prop.hasHotel = false ∧ prop.houses < 4 ∧ 0 < ha := by
  unfold validateBuildHouse at h
  rw [hp] at h
  dsimp only at h
  split_ifs at h with h1 h2 h3 h4 h5 h6 h7 h8 h9 h10 h11
  all_goals try simp [VFailure] at h
  refine ⟨canBuildHouse_developed b pos player.id prop hp h9, ?_, ?_, ?_⟩
  · revert h7; cases prop.hasHotel <;> simp
  · omega
  · omega

/-- Facts recoverable from a passing build_hotel validation. -/
theorem validateBuildHotel_facts (b : Board) (hh : Int) (player : Player) (pos : Nat)
    (cur : String) (prop : Property)
    (hp : getProperty b pos = some prop)
    (h : (validateBuildHotel b hh player pos cur).valid = true) :
    prop.canBeDeveloped = true ∧ prop.hasHotel = false ∧ prop.houses = 4 ∧ 0 < hh := by
  unfold validateBuildHotel at h
  rw [hp] at h
  dsimp only at h
  split_ifs at h with h1 h2 h3 h4 h5 h6 h7 h8 h9
  all_goals try simp [VFailure] at h
  refine ⟨?_, by revert h5; cases prop.hasHotel <;> simp, by omega, by omega⟩
  -- canBeDeveloped follows from can_build_hotel passing, which rechecks it.
  have h7' := h7
  unfold canBuildHotel at h7'
  rw [hp] at h7'
  dsimp only at h7'
  split_ifs at h7' with g1 g2 g3 g4
  all_goals try simp at h7'
  all_goals exact g1

/-- Position is untouched by the house-building mutation. -/
theorem propBuildHouse_position (p : Property) : (propBuildHouse p).position = p.position := by
  unfold propBuildHouse; split_ifs <;> rfl

/-- Position is untouched by the hotel-building mutation. -/
theorem propBuildHotel_position (p : Property) : (propBuildHotel p).position = p.position := by
  unfold propBuildHotel; split_ifs <;> rfl

/-- A developable property below four houses without a hotel gains exactly
one house. -/
theorem propBuildHouse_eq (prop : Property) (hdev : prop.canBeDeveloped = true)
    (hhot : prop.hasHotel = false) (hlt : prop.houses < 4) :
    propBuildHouse prop = { prop with houses := prop.houses + 1 } := by
  unfold propBuildHouse
  rw [if_neg (by simp [hdev]), if_neg (by simp [hhot]; omega)]

/-- A developable property with exactly four houses and no hotel converts
to a hotel with zero houses. -/
theorem propBuildHotel_eq (prop : Property) (hdev : prop.canBeDeveloped = true)
    (hhot : prop.hasHotel = false) (h4 : prop.houses = 4) :
    propBuildHotel prop = { prop with houses := 0, hasHotel := true } := by
  unfold propBuildHotel
  rw [if_neg (by simp [hdev]), if_neg (by simp [hhot, h4])]

/-- The house-building mutation keeps the hotel/houses discipline. -/
theorem propBuildHouse_hotelWF (p : Property) (hp : p.hasHotel = true → p.houses = 0) :
    (propBuildHouse p).hasHotel = true → (propBuildHouse p).houses = 0 := by
  unfold propBuildHouse
  split_ifs with h1 h2
  all_goals first
    | exact hp
    | (intro hh; exact absurd (Or.inr hh) h2)

/-- The hotel-building mutation keeps the hotel/houses discipline. -/
theorem propBuildHotel_hotelWF (p : Property) (hp : p.hasHotel = true → p.houses = 0) :
    (propBuildHotel p).hasHotel = true → (propBuildHotel p).houses = 0 := by
  unfold propBuildHotel
  split_ifs with h1 h2
  all_goals first
    | exact hp
    | (intro _; rfl)

/-- use_house / use_hotel / return_house / return_hotel leave the board
untouched. -/
theorem useHouse_board (s : GameState) : (useHouse s).board = s.board := by
  unfold useHouse; split <;> rfl

/-- use_house leaves the hotel counter untouched. -/
theorem useHouse_hotels (s : GameState) : (useHouse s).hotelsAvailable = s.hotelsAvailable := by
  unfold useHouse; split <;> rfl

/-- use_hotel leaves the board untouched. -/
theorem useHotel_board (s : GameState) : (useHotel s).board = s.board := by
  unfold useHotel; split <;> rfl

/-- use_house with a positive counter decrements it. -/
theorem useHouse_houses_pos (s : GameState) (h : 0 < s.housesAvailable) :
    (useHouse s).housesAvailable = s.housesAvailable - 1 := by
  unfold useHouse; rw [if_pos h]

/-- use_hotel with a positive counter decrements hotels and returns the
four houses. -/
theorem useHotel_pos (s : GameState) (h : 0 < s.hotelsAvailable) :
    (useHotel s).hotelsAvailable = s.hotelsAvailable - 1 ∧
    (useHotel s).housesAvailable = s.housesAvailable + 4 := by
  unfold useHotel; rw [if_pos h]; exact ⟨rfl, rfl⟩

/-- Mutating a player does not change the board. -/
theorem updatePlayer_board (s : GameState) (pid : String) (f : Player → Player) :
    (updatePlayer s pid f).board = s.board := rfl

/-- Mutating a player does not change the house counter. -/
theorem updatePlayer_houses (s : GameState) (pid : String) (f : Player → Player) :
    (updatePlayer s pid f).housesAvailable = s.housesAvailable := rfl

/-- Mutating a player does not change the hotel counter. -/
theorem updatePlayer_hotels (s : GameState) (pid : String) (f : Player → Player) :
    (updatePlayer s pid f).hotelsAvailable = s.hotelsAvailable := rfl

/-- Mutating a property rewrites the board pointwise. -/
theorem setProp_board (s : GameState) (pos : Nat) (f : Property → Property) :
    (setProp s pos f).board = setPropB s.board pos f := rfl

/-- Mutating a property does not change the house counter. -/
theorem setProp_houses (s : GameState) (pos : Nat) (f : Property → Property) :
    (setProp s pos f).housesAvailable = s.housesAvailable := rfl

/-- Mutating a property does not change the hotel counter. -/
theorem setProp_hotels (s : GameState) (pos : Nat) (f : Property → Property) :
    (setProp s pos f).hotelsAvailable = s.hotelsAvailable := rfl

/-- Claim C2 helper: build_house preserves the bank invariant. -/
theorem bankInv_buildHouse (s : GameState) (pid : String) (pos : Nat) (h : bankInv s) :
    bankInv (buildHouse s pid pos).st := by
  unfold buildHouse
  cases hf : findPlayer s pid with
  | none => exact h
  | some player =>
      dsimp only
      by_cases hv : (validateBuildHouse s.board s.housesAvailable player pos
          (currentPlayerIdStr s)).valid = true
      · rw [if_pos hv]
        cases hp : getProperty s.board pos with
        | none => exact h
        | some prop =>
            obtain ⟨hdev, hhot, hlt, hha⟩ := validateBuildHouse_facts _ _ _ _ _ _ hp hv
            obtain ⟨⟨hnd, hhw⟩, ⟨hcs, hch⟩, ⟨hn1, hn2⟩⟩ := h
            obtain ⟨hsum, hcnt⟩ := counts_setPropB s.board pos propBuildHouse prop hnd hp
            rw [propBuildHouse_eq prop hdev hhot hlt] at hsum hcnt
            dsimp only at hsum hcnt
            dsimp only [StepRes.st]
            have hha2 : 0 < (setProp (updatePlayer s pid
                (fun p => p.removeMoney (prop.houseCost.getD 0))) pos
                propBuildHouse).housesAvailable := hha
            refine ⟨?_, ⟨?_, ?_⟩, ⟨?_, ?_⟩⟩
            · rw [useHouse_board, setProp_board, updatePlayer_board]
              exact boardWF_setPropB s.board pos propBuildHouse ⟨hnd, hhw⟩
                propBuildHouse_position (fun p _ hdisc => propBuildHouse_hotelWF p hdisc)
            · rw [useHouse_board, setProp_board, updatePlayer_board,
                useHouse_houses_pos _ hha2, setProp_houses, updatePlayer_houses]
              omega
            · rw [useHouse_board, setProp_board, updatePlayer_board,
                useHouse_hotels, setProp_hotels, updatePlayer_hotels]
              omega
            · rw [useHouse_houses_pos _ hha2, setProp_houses, updatePlayer_houses]
              omega
            · rw [useHouse_hotels, setProp_hotels, updatePlayer_hotels]
              exact hn2
      · rw [if_neg hv]
        exact h

/-- Claim C2 helper: build_hotel preserves the bank invariant. -/
theorem bankInv_buildHotel (s : GameState) (pid : String) (pos : Nat) (h : bankInv s) :
    bankInv (buildHotel s pid pos).st := by
  unfold buildHotel
  cases hf : findPlayer s pid with
  | none => exact h
  | some player =>
      dsimp only
      by_cases hv : (validateBuildHotel s.board s.hotelsAvailable player pos
          (currentPlayerIdStr s)).valid = true
      · rw [if_pos hv]
        cases hp : getProperty s.board pos with
        | none => exact h
        | some prop =>
            obtain ⟨hdev, hhot, h4, hh0⟩ := validateBuildHotel_facts _ _ _ _ _ _ hp hv
            obtain ⟨⟨hnd, hhw⟩, ⟨hcs, hch⟩, ⟨hn1, hn2⟩⟩ := h
            obtain ⟨hsum, hcnt⟩ := counts_setPropB s.board pos propBuildHotel prop hnd hp
            rw [propBuildHotel_eq prop hdev hhot h4] at hsum hcnt
            dsimp only at hsum hcnt
            rw [hhot] at hcnt
            simp at hcnt
            dsimp only [StepRes.st]
            have hh2 : 0 < (setProp (updatePlayer s pid
                (fun p => p.removeMoney (prop.houseCost.getD 0))) pos
                propBuildHotel).hotelsAvailable := hh0
            obtain ⟨hu1, hu2⟩ := useHotel_pos _ hh2
            refine ⟨?_, ⟨?_, ?_⟩, ⟨?_, ?_⟩⟩
            · rw [useHotel_board, setProp_board, updatePlayer_board]
              exact boardWF_setPropB s.board pos propBuildHotel ⟨hnd, hhw⟩
                propBuildHotel_position (fun p _ hdisc => propBuildHotel_hotelWF p hdisc)
            · rw [useHotel_board, setProp_board, updatePlayer_board, hu2,
                setProp_houses, updatePlayer_houses]
              omega
            · rw [useHotel_board, setProp_board, updatePlayer_board, hu1,
                setProp_hotels, updatePlayer_hotels]
              omega
            · rw [hu2, setProp_houses, updatePlayer_houses]
              omega
            · rw [hu1, setProp_hotels, updatePlayer_hotels]
              omega
      · rw [if_neg hv]
        exact h

/-- Selling a present hotel converts it back to four houses. -/
theorem propSellHotel_eq (p : Property) (h : p.hasHotel = true) :
    (propSellHotel p).1 = { p with hasHotel := false, houses := 4 } := by
  unfold propSellHotel
  rw [if_neg (by simp [h])]

/-- Selling a house from a property that has one decrements the count. -/
theorem propSellHouse_eq (p : Property) (h : 0 < p.houses) :
    (propSellHouse p).1 = { p with houses := p.houses - 1 } := by
  unfold propSellHouse
  rw [if_neg (by omega)]

/-- Position is untouched by the hotel-selling mutation. -/
theorem propSellHotel_position (p : Property) : ((propSellHotel p).1).position = p.position := by
  unfold propSellHotel; split_ifs <;> rfl

/-- Position is untouched by the house-selling mutation. -/
theorem propSellHouse_position (p : Property) : ((propSellHouse p).1).position = p.position := by
  unfold propSellHouse; split_ifs <;> rfl

/-- The hotel-selling mutation keeps the hotel/houses discipline. -/
theorem propSellHotel_hotelWF (p : Property) (hp : p.hasHotel = true → p.houses = 0) :
    ((propSellHotel p).1).hasHotel = true → ((propSellHotel p).1).houses = 0 := by
  unfold propSellHotel
  split_ifs with h1
  all_goals first
    | exact hp
    | (intro hh; exact hh.elim)
    | (intro hh; exact absurd hh h1)
    | (intro hh; exact hp hh)
    | (intro hh; simp at hh)

/-- The house-selling mutation keeps the hotel/houses discipline. -/
theorem propSellHouse_hotelWF (p : Property) (hp : p.hasHotel = true → p.houses = 0) :
    ((propSellHouse p).1).hasHotel = true → ((propSellHouse p).1).houses = 0 := by
  unfold propSellHouse
  split_ifs with h1
  all_goals first
    | exact hp
    | (intro hh; exact hh.elim)
    | (intro hh; exact absurd hh h1)
    | (intro hh; have := hp hh; omega)
    | (intro hh; simp at hh)

/-- Facts recoverable from a passing sell-building validation. -/
theorem validateSellHouse_facts (b : Board) (player : Player) (pos : Nat) (prop : Property)
    (hp : getProperty b pos = some prop)
    (h : (validateSellHouse b player pos).valid = true) :
    prop.hasHotel = false → 0 < prop.houses := by
  unfold validateSellHouse at h
  rw [hp] at h
  dsimp only at h
  split_ifs at h with h1 h2 h3
  all_goals try simp [VFailure] at h
  intro hhot
  rcases Nat.eq_zero_or_pos prop.houses with hz | hpos
  · exact absurd ⟨by omega, by simp [hhot]⟩ h2
  · exact hpos

/-- Claim C2 helper: sell_building always preserves well-formedness and
conservation; it preserves the full invariant provided 4 houses are left in
the bank whenever a hotel is sold. -/
theorem sellBuilding_bank (s : GameState) (pid : String) (pos : Nat) (hinv : bankInv s) :
    (boardWF (sellBuilding s pid pos).st.board ∧ bankCons (sellBuilding s pid pos).st) ∧
    ((∀ p, getProperty s.board pos = some p → p.hasHotel = true → 4 ≤ s.housesAvailable) →
      bankInv (sellBuilding s pid pos).st) := by
  obtain ⟨⟨hnd, hhw⟩, ⟨hcs, hch⟩, ⟨hn1, hn2⟩⟩ := hinv
  unfold sellBuilding
  cases hf : findPlayer s pid with
  | none => exact ⟨⟨⟨hnd, hhw⟩, hcs, hch⟩, fun _ => ⟨⟨hnd, hhw⟩, ⟨hcs, hch⟩, hn1, hn2⟩⟩
  | some player =>
      dsimp only
      by_cases hv : (validateSellHouse s.board player pos).valid = true
      · rw [if_pos hv]
        cases hp : getProperty s.board pos with
        | none => exact ⟨⟨⟨hnd, hhw⟩, hcs, hch⟩, fun _ => ⟨⟨hnd, hhw⟩, ⟨hcs, hch⟩, hn1, hn2⟩⟩
        | some prop =>
            dsimp only
            have hsell := validateSellHouse_facts s.board player pos prop hp hv
            by_cases hhot : prop.hasHotel = true
            · rw [if_pos hhot]
              have hph : prop.houses = 0 :=
                hhw prop (List.mem_of_find?_eq_some hp) hhot
              obtain ⟨hsum, hcnt⟩ :=
                counts_setPropB s.board pos (fun q => (propSellHotel q).1) prop hnd hp
              rw [propSellHotel_eq prop hhot] at hsum hcnt
              dsimp only at hsum hcnt
              rw [hph] at hsum
              rw [hhot] at hcnt
              simp at hcnt
              dsimp only [StepRes.st]
              have hwf2 : boardWF (setPropB s.board pos (fun q => (propSellHotel q).1)) :=
                boardWF_setPropB s.board pos _ ⟨hnd, hhw⟩
                  propSellHotel_position (fun p _ hdisc => propSellHotel_hotelWF p hdisc)
              refine ⟨⟨?_, ?_, ?_⟩, fun hprov => ⟨?_, ⟨?_, ?_⟩, ?_, ?_⟩⟩
              · exact hwf2
              · show (sumHouses (setPropB s.board pos fun q => (propSellHotel q).1) : Int) +
                  (s.housesAvailable - 4) = 32
                omega
              · show (countHotels (setPropB s.board pos fun q => (propSellHotel q).1) : Int) +
                  (s.hotelsAvailable + 1) = 12
                omega
              · exact hwf2
              · show (sumHouses (setPropB s.board pos fun q => (propSellHotel q).1) : Int) +
                  (s.housesAvailable - 4) = 32
                omega
              · show (countHotels (setPropB s.board pos fun q => (propSellHotel q).1) : Int) +
                  (s.hotelsAvailable + 1) = 12
                omega
              · have := hprov prop rfl hhot
                show (0 : Int) ≤ s.housesAvailable - 4
                omega
              · show (0 : Int) ≤ s.hotelsAvailable + 1
                omega
            · rw [if_neg hhot]
              have hpos : 0 < prop.houses := hsell (by revert hhot; cases prop.hasHotel <;> simp)
              obtain ⟨hsum, hcnt⟩ :=
                counts_setPropB s.board pos (fun q => (propSellHouse q).1) prop hnd hp
              rw [propSellHouse_eq prop hpos] at hsum hcnt
              dsimp only at hsum hcnt
              dsimp only [StepRes.st]
              have hwf2 : boardWF (setPropB s.board pos (fun q => (propSellHouse q).1)) :=
                boardWF_setPropB s.board pos _ ⟨hnd, hhw⟩
                  propSellHouse_position (fun p _ hdisc => propSellHouse_hotelWF p hdisc)
              refine ⟨⟨?_, ?_, ?_⟩, fun _ => ⟨?_, ⟨?_, ?_⟩, ?_, ?_⟩⟩
              · exact hwf2
              · show (sumHouses (setPropB s.board pos fun q => (propSellHouse q).1) : Int) +
                  (s.housesAvailable + 1) = 32
                omega
              · show (countHotels (setPropB s.board pos fun q => (propSellHouse q).1) : Int) +
                  s.hotelsAvailable = 12
                omega
              · exact hwf2
              · show (sumHouses (setPropB s.board pos fun q => (propSellHouse q).1) : Int) +
                  (s.housesAvailable + 1) = 32
                omega
              · show (countHotels (setPropB s.board pos fun q => (propSellHouse q).1) : Int) +
                  s.hotelsAvailable = 12
                omega
              · show (0 : Int) ≤ s.housesAvailable + 1
                omega
              · exact hn2
      · rw [if_neg hv]
        exact ⟨⟨⟨hnd, hhw⟩, hcs, hch⟩, fun _ => ⟨⟨hnd, hhw⟩, ⟨hcs, hch⟩, hn1, hn2⟩⟩

/-- The house-selling loop returns one house to the bank per house. -/
theorem liquidateHousesLoop_eq (n : Nat) (a : Int) : liquidateHousesLoop n a = a + n := by
  induction n generalizing a with
  | zero => simp [liquidateHousesLoop]
  | succ k ih =>
      show liquidateHousesLoop k (a + 1) = a + (k + 1 : Nat)
      rw [ih]
      push_cast
      ring

/-- Claim C2/C3 helper: liquidating one property preserves the bank
invariant. -/
theorem bankInv_liquidateProp (s : GameState) (pos : Nat) (h : bankInv s) :
    bankInv (liquidateProp s pos) := by
  obtain ⟨⟨hnd, hhw⟩, ⟨hcs, hch⟩, ⟨hn1, hn2⟩⟩ := h
  unfold liquidateProp
  cases hp : getProperty s.board pos with
  | none => exact ⟨⟨hnd, hhw⟩, ⟨hcs, hch⟩, hn1, hn2⟩
  | some prop =>
      dsimp only
      by_cases hhot : prop.hasHotel = true
      · rw [if_pos hhot]
        have hph : prop.houses = 0 := hhw prop (List.mem_of_find?_eq_some hp) hhot
        obtain ⟨hsum1, hcnt1⟩ :=
          counts_setPropB s.board pos (fun q => (propSellHotel q).1) prop hnd hp
        rw [propSellHotel_eq prop hhot] at hsum1 hcnt1
        dsimp only at hsum1 hcnt1
        rw [hph] at hsum1
        rw [hhot] at hcnt1
        simp at hcnt1
        have hwf1 : boardWF (setPropB s.board pos (fun q => (propSellHotel q).1)) :=
          boardWF_setPropB s.board pos _ ⟨hnd, hhw⟩
            propSellHotel_position (fun p _ hdisc => propSellHotel_hotelWF p hdisc)
        have hget1 : getProperty (returnHotel (setProp s pos
            (fun q => (propSellHotel q).1))).board pos =
            some { prop with hasHotel := false, houses := 4 } := by
          show getProperty (setPropB s.board pos fun q => (propSellHotel q).1) pos = _
          rw [getProperty_setPropB s.board pos _ prop hp propSellHotel_position,
            propSellHotel_eq prop hhot]
        rw [hget1]
        dsimp only
        obtain ⟨hsum3, hcnt3⟩ := counts_setPropB
          (setPropB s.board pos (fun q => (propSellHotel q).1)) pos
          (fun q => { q with houses := 0, ownerId := none, isMortgaged := false })
          { prop with hasHotel := false, houses := 4 } hwf1.1 hget1
        dsimp only at hsum3 hcnt3
        refine ⟨?_, ⟨?_, ?_⟩, ⟨?_, ?_⟩⟩
        · exact boardWF_setPropB _ pos _ hwf1 (fun p => rfl) (fun p _ _ _ => rfl)
        · show (sumHouses (setPropB (setPropB s.board pos fun q => (propSellHotel q).1) pos
            fun q => { q with houses := 0, ownerId := none, isMortgaged := false }) : Int) +
            liquidateHousesLoop 4 (s.housesAvailable - 4) = 32
          rw [liquidateHousesLoop_eq]
          omega
        · show (countHotels (setPropB (setPropB s.board pos fun q => (propSellHotel q).1) pos
            fun q => { q with houses := 0, ownerId := none, isMortgaged := false }) : Int) +
            (s.hotelsAvailable + 1) = 12
          omega
        · show (0 : Int) ≤ liquidateHousesLoop 4 (s.housesAvailable - 4)
          rw [liquidateHousesLoop_eq]
          omega
        · show (0 : Int) ≤ s.hotelsAvailable + 1
          omega
      · rw [if_neg hhot]
        rw [hp]
        dsimp only
        obtain ⟨hsum3, hcnt3⟩ := counts_setPropB s.board pos
          (fun q => { q with houses := 0, ownerId := none, isMortgaged := false }) prop hnd hp
        dsimp only at hsum3 hcnt3
        refine ⟨?_, ⟨?_, ?_⟩, ⟨?_, ?_⟩⟩
        · exact boardWF_setPropB _ pos _ ⟨hnd, hhw⟩ (fun p => rfl) (fun p _ _ _ => rfl)
        · show (sumHouses (setPropB s.board pos
            fun q => { q with houses := 0, ownerId := none, isMortgaged := false }) : Int) +
            liquidateHousesLoop prop.houses s.housesAvailable = 32
          rw [liquidateHousesLoop_eq]
          omega
        · show (countHotels (setPropB s.board pos
            fun q => { q with houses := 0, ownerId := none, isMortgaged := false }) : Int) +
            s.hotelsAvailable = 12
          omega
        · show (0 : Int) ≤ liquidateHousesLoop prop.houses s.housesAvailable
          rw [liquidateHousesLoop_eq]
          omega
        · exact hn2

/-- Folding liquidation over any position list preserves the invariant. -/
theorem bankInv_liquidate_fold (L : List Nat) : ∀ s : GameState, bankInv s →
    bankInv (L.foldl (fun s pos => liquidateProp s pos) s) := by
  induction L with
  | nil => exact fun s h => h
  | cons a t ih => exact fun s h => ih _ (bankInv_liquidateProp s a h)

/-- Transferring one property to a creditor preserves the invariant. -/
theorem bankInv_transferPropStep (cid : String) (s : GameState) (pos : Nat)
    (h : bankInv s) : bankInv (transferPropStep cid s pos) := by
  obtain ⟨⟨hnd, hhw⟩, ⟨hcs, hch⟩, ⟨hn1, hn2⟩⟩ := h
  unfold transferPropStep
  cases hp : getProperty s.board pos with
  | none => exact ⟨⟨hnd, hhw⟩, ⟨hcs, hch⟩, hn1, hn2⟩
  | some prop =>
      dsimp only
      obtain ⟨hsum, hcnt⟩ := counts_setPropB s.board pos
        (fun q => { q with ownerId := some cid }) prop hnd hp
      dsimp only at hsum hcnt
      refine ⟨?_, ⟨?_, ?_⟩, ⟨?_, ?_⟩⟩
      · exact boardWF_setPropB _ pos _ ⟨hnd, hhw⟩ (fun p => rfl) (fun p _ hd => hd)
      · show (sumHouses (setPropB s.board pos fun q => { q with ownerId := some cid }) : Int) +
          s.housesAvailable = 32
        omega
      · show (countHotels (setPropB s.board pos fun q => { q with ownerId := some cid }) : Int) +
          s.hotelsAvailable = 12
        omega
      · exact hn1
      · exact hn2

/-- Folding creditor transfer over any position list preserves the
invariant. -/
theorem bankInv_transfer_fold (cid : String) (L : List Nat) : ∀ s : GameState, bankInv s →
    bankInv (L.foldl (transferPropStep cid) s) := by
  induction L with
  | nil => exact fun s h => h
  | cons a t ih => exact fun s h => ih _ (bankInv_transferPropStep cid s a h)

/-- Claim C2 helper: bankruptcy handling preserves the bank invariant, with
or without a creditor. -/
theorem bankInv_handleBankruptcy (s : GameState) (pid : String) (cid : Option String)
    (h : bankInv s) : bankInv (handleBankruptcy s pid cid) := by
  unfold handleBankruptcy
  cases hf : findPlayer s pid with
  | none => exact h
  | some player =>
      dsimp only
      cases hcr : cid.bind (fun c => findPlayer s c) with
      | some creditor =>
          exact bankInv_transfer_fold creditor.id player.properties _
            (show bankInv (updatePlayer s creditor.id _) from h)
      | none =>
          exact bankInv_liquidate_fold player.properties s h

/-- The success path of build_hotel: exactly 4 houses return to the bank,
one hotel is consumed, and the property ends with a hotel and no houses. -/
theorem buildHotel_atomic (s : GameState) (pid : String) (pos : Nat)
    (hok : (buildHotel s pid pos).ok = true) :
    (buildHotel s pid pos).st.housesAvailable = s.housesAvailable + 4 ∧
    (buildHotel s pid pos).st.hotelsAvailable = s.hotelsAvailable - 1 ∧
    (getProperty (buildHotel s pid pos).st.board pos).map Property.houses = some 0 ∧
    (getProperty (buildHotel s pid pos).st.board pos).map Property.hasHotel = some true := by
  unfold buildHotel at hok ⊢
  cases hf : findPlayer s pid with
  | none => rw [hf] at hok; simp at hok
  | some player =>
      rw [hf] at hok
      dsimp only at hok ⊢
      by_cases hv : (validateBuildHotel s.board s.hotelsAvailable player pos
          (currentPlayerIdStr s)).valid = true
      · rw [if_pos hv] at hok ⊢
        cases hp : getProperty s.board pos with
        | none => rw [hp] at hok; simp at hok
        | some prop =>
            obtain ⟨hdev, hhot, h4, hh0⟩ := validateBuildHotel_facts _ _ _ _ _ _ hp hv
            dsimp only [StepRes.st]
            have hh2 : 0 < (setProp (updatePlayer s pid
                (fun p => p.removeMoney (prop.houseCost.getD 0))) pos
                propBuildHotel).hotelsAvailable := hh0
            obtain ⟨hu1, hu2⟩ := useHotel_pos _ hh2
            refine ⟨?_, ?_, ?_, ?_⟩
            · rw [hu2, setProp_houses, updatePlayer_houses]
            · rw [hu1, setProp_hotels, updatePlayer_hotels]
            · rw [useHotel_board, setProp_board, updatePlayer_board,
                getProperty_setPropB s.board pos _ prop hp propBuildHotel_position,
                propBuildHotel_eq prop hdev hhot h4]
              rfl
            · rw [useHotel_board, setProp_board, updatePlayer_board,
                getProperty_setPropB s.board pos _ prop hp propBuildHotel_position,
                propBuildHotel_eq prop hdev hhot h4]
              rfl
      · rw [if_neg hv] at hok
        simp at hok

/-- Mutable board state for the C2 counterexample: 32 houses standing on
the Brown, Light Blue and Pink groups plus a hotel on St. James Place, all
owned by player A. -/
def c2Muts : Nat → PropMut := fun pos =>
  if pos = 16 then { ownerId := some "A", hasHotel := true }
  else if pos = 1 ∨ pos = 3 ∨ pos = 6 ∨ pos = 8 ∨ pos = 9 ∨
      pos = 11 ∨ pos = 13 ∨ pos = 14 then
    { ownerId := some "A", houses := 4 }
  else {}

/-- Player A of the C2 counterexample. -/
def c2A : Player :=
  { name := "Alice", id := "A", properties := [1, 3, 6, 8, 9, 11, 13, 14, 16] }

/-- The C2 counterexample state: every bank house is on the board
(32 standing, 0 available) and a hotel stands on St. James Place. -/
def c2State : GameState :=
  { board := mkStdBoard c2Muts, players := [c2A], playerOrder := ["A"],
    currentPlayerIndex := 0, phase := .POST_ROLL, turnNumber := 3,
    housesAvailable := 0, hotelsAvailable := 11,
    chance := emptyDeck .CHANCE, communityChest := emptyDeck .COMMUNITY_CHEST }

/-- Claim C2, refuted at a concrete input: from a state satisfying the bank
invariant (32 houses standing, none available), selling the hotel on
St. James Place succeeds, puts 4 more houses on the board (36 > 32) and
drives the bank's house counter to -4.  validate_sell_house never checks
that 4 houses remain in the bank. -/
theorem sell_hotel_exceeds_house_pool :
    bankInv c2State ∧
    (sellBuilding c2State "A" 16).ok = true ∧
    sumHouses (sellBuilding c2State "A" 16).st.board = 36 ∧
    ¬ sumHouses (sellBuilding c2State "A" 16).st.board ≤ 32 ∧
    (sellBuilding c2State "A" 16).st.housesAvailable = -4 := by
  decide

/-- Claim C2 (amended).  Conservation of the building pool and board
well-formedness are preserved by build_house, build_hotel, sell_building
and bankruptcy liquidation; the claim's bound (at most 32 houses and 12
hotels standing) is likewise preserved, except by sell_building on a hotel
when fewer than 4 houses remain in the bank; a hotel conversion atomically
returns 4 houses and consumes 1 hotel. -/
theorem bank_pool_invariant_amended (s : GameState) (pid : String) (pos : Nat)
    (cid : Option String) (hinv : bankInv s) :
    bankInv (buildHouse s pid pos).st ∧
    bankInv (buildHotel s pid pos).st ∧
    ((buildHotel s pid pos).ok = true →
      (buildHotel s pid pos).st.housesAvailable = s.housesAvailable + 4 ∧
      (buildHotel s pid pos).st.hotelsAvailable = s.hotelsAvailable - 1 ∧
      (getProperty (buildHotel s pid pos).st.board pos).map Property.houses = some 0 ∧
      (getProperty (buildHotel s pid pos).st.board pos).map Property.hasHotel = some true) ∧
    (boardWF (sellBuilding s pid pos).st.board ∧ bankCons (sellBuilding s pid pos).st) ∧
    ((∀ p, getProperty s.board pos = some p → p.hasHotel = true → 4 ≤ s.housesAvailable) →
      bankInv (sellBuilding s pid pos).st) ∧
    bankInv (handleBankruptcy s pid cid) ∧
    (sumHouses s.board ≤ 32 ∧ countHotels s.board ≤ 12) :=
  ⟨bankInv_buildHouse s pid pos hinv,
   bankInv_buildHotel s pid pos hinv,
   fun hok => buildHotel_atomic s pid pos hok,
   (sellBuilding_bank s pid pos hinv).1,
   (sellBuilding_bank s pid pos hinv).2,
   bankInv_handleBankruptcy s pid cid hinv,
   by obtain ⟨_, ⟨c1, c2⟩, n1, n2⟩ := hinv; constructor <;> omega⟩

/-- Witness for C2 (amended), at the concrete C5 state (fresh board, full
bank). -/
theorem bank_pool_invariant_amended_witness :
    bankInv c5State ∧
    (bankInv (buildHouse c5State "A" 1).st ∧
    bankInv (buildHotel c5State "A" 1).st ∧
    ((buildHotel c5State "A" 1).ok = true →
      (buildHotel c5State "A" 1).st.housesAvailable = c5State.housesAvailable + 4 ∧
      (buildHotel c5State "A" 1).st.hotelsAvailable = c5State.hotelsAvailable - 1 ∧
      (getProperty (buildHotel c5State "A" 1).st.board 1).map Property.houses = some 0 ∧
      (getProperty (buildHotel c5State "A" 1).st.board 1).map Property.hasHotel = some true) ∧
    (boardWF (sellBuilding c5State "A" 1).st.board ∧ bankCons (sellBuilding c5State "A" 1).st) ∧
    ((∀ p, getProperty c5State.board 1 = some p → p.hasHotel = true →
        4 ≤ c5State.housesAvailable) →
      bankInv (sellBuilding c5State "A" 1).st) ∧
    bankInv (handleBankruptcy c5State "A" none) ∧
    (sumHouses c5State.board ≤ 32 ∧ countHotels c5State.board ≤ 12)) :=
  ⟨by decide, bank_pool_invariant_amended c5State "A" 1 none (by decide)⟩

/-! Claim C3: bankruptcy transfers everything to the creditor, or
liquidates back to the bank.  Helper lemmas about player lookups first. -/

/-- A found player carries the looked-up id. -/
theorem findPlayer_id (s : GameState) (pid : String) (p : Player)
    (h : findPlayer s pid = some p) : p.id = pid := by
  unfold findPlayer at h
  have h2 : (p.id == pid) = true :=
    @List.find?_some Player (fun q => q.id == pid) p s.players h
  exact eq_of_beq h2

/-- find? after an id-preserving pointwise update. -/
theorem find?_map_id (l : List Player) (pid x : String) (f : Player → Player)
    (hid : ∀ p, (f p).id = p.id) :
    (l.map (fun p => if p.id = pid then f p else p)).find? (fun p => p.id == x) =
      (l.find? (fun p => p.id == x)).map (fun p => if p.id = pid then f p else p) := by
  induction l with
  | nil => rfl
  | cons a t ih =>
      have hida : (if a.id = pid then f a else a).id = a.id := by
        by_cases h : a.id = pid <;> simp [h, hid]
      by_cases hx : a.id = x
      · rw [List.map_cons, List.find?_cons_of_pos _ (by simp only [hida]; simp [hx]),
          List.find?_cons_of_pos _ (by simp [hx])]
        rfl
      · rw [List.map_cons, List.find?_cons_of_neg _ (by simp only [hida]; simp [hx]),
          List.find?_cons_of_neg _ (by simp [hx])]
        exact ih

/-- Looking a player up after an id-preserving update. -/
theorem findPlayer_updatePlayer (s : GameState) (pid x : String) (f : Player → Player)
    (hid : ∀ p, (f p).id = p.id) :
    findPlayer (updatePlayer s pid f) x =
      (findPlayer s x).map (fun p => if p.id = pid then f p else p) :=
  find?_map_id s.players pid x f hid

/-- Adding a property records the position. -/
theorem addProperty_mem_self (p : Player) (pos : Nat) : pos ∈ (p.addProperty pos).properties := by
  unfold Player.addProperty
  by_cases h : pos ∈ p.properties <;> simp [h]

/-- Adding a property keeps previously held positions. -/
theorem addProperty_mono (p : Player) (x pos : Nat) (h : x ∈ p.properties) :
    x ∈ (p.addProperty pos).properties := by
  unfold Player.addProperty
  by_cases hm : pos ∈ p.properties <;> simp [hm, h]

/-- Presence of a property at a position survives any position-preserving
update of the board. -/
theorem getProperty_setPropB_isSome (b : Board) (p2 pos : Nat) (f : Property → Property)
    (hf : ∀ p, (f p).position = p.position) :
    (getProperty (setPropB b p2 f) pos).isSome = (getProperty b pos).isSome := by
  induction b with
  | nil => rfl
  | cons a t ih =>
      show (getProperty ((if a.position = p2 then f a else a) :: setPropB t p2 f) pos).isSome = _
      have hpa : (if a.position = p2 then f a else a).position = a.position := by
        by_cases h : a.position = p2 <;> simp [h, hf]
      by_cases hx : a.position = pos
      · unfold getProperty
        rw [List.find?_cons_of_pos _ (by simp only [hpa]; simp [hx]),
          List.find?_cons_of_pos _ (by simp [hx])]
        rfl
      · unfold getProperty
        rw [List.find?_cons_of_neg _ (by simp only [hpa]; simp [hx]),
          List.find?_cons_of_neg _ (by simp [hx])]
        exact ih

/-- Board state at one position: owned by the creditor with a given
mortgage flag. -/
def ownedByAt (s : GameState) (pos : Nat) (cid : String) (m : Bool) : Prop :=
  ∃ q, getProperty s.board pos = some q ∧ q.ownerId = some cid ∧ q.isMortgaged = m

/-- Board state at one position: returned to the bank. -/
def clearedAt (s : GameState) (pos : Nat) : Prop :=
  ∃ q, getProperty s.board pos = some q ∧ q.ownerId = none ∧
    q.isMortgaged = false ∧ q.houses = 0 ∧ q.hasHotel = false

/-- One creditor-transfer step keeps a position owned by the creditor. -/
theorem transferPropStep_pres (cid : String) (s : GameState) (p2 pos : Nat) (m : Bool)
    (h : ownedByAt s pos cid m) : ownedByAt (transferPropStep cid s p2) pos cid m := by
  obtain ⟨q, hq, ho, hm⟩ := h
  unfold transferPropStep
  cases hp2 : getProperty s.board p2 with
  | none => exact ⟨q, hq, ho, hm⟩
  | some q2 =>
      dsimp only
      by_cases he : pos = p2
      · subst he
        rw [hq] at hp2
        injection hp2 with hqq
        subst hqq
        refine ⟨{ q with ownerId := some cid }, ?_, rfl, hm⟩
        show getProperty (setPropB s.board pos fun r => { r with ownerId := some cid }) pos = _
        rw [getProperty_setPropB s.board pos (fun r => { r with ownerId := some cid })
          q hq (fun p => rfl)]
      · refine ⟨q, ?_, ho, hm⟩
        show getProperty (setPropB s.board p2 fun r => { r with ownerId := some cid }) pos = some q
        rw [getProperty_setPropB_ne s.board p2 pos (fun r => { r with ownerId := some cid })
          he (fun p => rfl)]
        exact hq

/-- Transferring a present position hands it to the creditor, mortgage
state intact. -/
theorem transferPropStep_effect (cid : String) (s : GameState) (pos : Nat) (q : Property)
    (hq : getProperty s.board pos = some q) :
    ownedByAt (transferPropStep cid s pos) pos cid q.isMortgaged := by
  unfold transferPropStep
  rw [hq]
  dsimp only
  refine ⟨{ q with ownerId := some cid }, ?_, rfl, rfl⟩
  show getProperty (setPropB s.board pos fun r => { r with ownerId := some cid }) pos = _
  rw [getProperty_setPropB s.board pos (fun r => { r with ownerId := some cid })
    q hq (fun p => rfl)]

/-- Creditor-transfer folds keep a position owned by the creditor. -/
theorem transfer_fold_pres (cid : String) (L : List Nat) : ∀ (s : GameState) (pos : Nat) (m : Bool),
    ownedByAt s pos cid m → ownedByAt (L.foldl (transferPropStep cid) s) pos cid m := by
  induction L with
  | nil => exact fun s pos m h => h
  | cons a t ih => exact fun s pos m h => ih _ pos m (transferPropStep_pres cid s a pos m h)

/-- After the creditor-transfer fold, every processed position (present on
the board) is owned by the creditor with its mortgage state intact. -/
theorem transfer_fold_board (cid : String) (L : List Nat) : ∀ (s : GameState) (pos : Nat)
    (q : Property), pos ∈ L → getProperty s.board pos = some q →
    ownedByAt (L.foldl (transferPropStep cid) s) pos cid q.isMortgaged := by
  induction L with
  | nil => intro s pos q h; cases h
  | cons a t ih =>
      intro s pos q hmem hq
      by_cases he : pos = a
      · subst he
        exact transfer_fold_pres cid t _ pos q.isMortgaged
          (transferPropStep_effect cid s pos q hq)
      · have hmem' : pos ∈ t := by
          cases List.mem_cons.mp hmem with
          | inl h => exact absurd h he
          | inr h => exact h
        apply ih _ pos q hmem'
        unfold transferPropStep
        cases hp2 : getProperty s.board a with
        | none => exact hq
        | some q2 =>
            dsimp only
            show getProperty (setPropB s.board a fun r => { r with ownerId := some cid }) pos = some q
            rw [getProperty_setPropB_ne s.board a pos (fun r => { r with ownerId := some cid })
              he (fun p => rfl)]
            exact hq

/-- Liquidation never touches the player roster. -/
theorem liquidateProp_players (s : GameState) (p2 : Nat) :
    (liquidateProp s p2).players = s.players := by
  unfold liquidateProp
  dsimp only
  repeat' split
  all_goals rfl

/-- Liquidating one position leaves every other position alone. -/
theorem liquidateProp_board_ne (s : GameState) (p2 pos : Nat) (hne : pos ≠ p2) :
    getProperty (liquidateProp s p2).board pos = getProperty s.board pos := by
  unfold liquidateProp
  cases hp2 : getProperty s.board p2 with
  | none => rfl
  | some prop =>
      dsimp only
      by_cases hh : prop.hasHotel = true
      · rw [if_pos hh]
        cases hin : getProperty (returnHotel (setProp s p2
            (fun q => (propSellHotel q).1))).board p2 with
        | none =>
            dsimp only
            show getProperty (setPropB s.board p2 fun q => (propSellHotel q).1) pos = _
            rw [getProperty_setPropB_ne s.board p2 pos (fun q => (propSellHotel q).1)
              hne propSellHotel_position]
        | some prop2 =>
            dsimp only
            show getProperty (setPropB (setPropB s.board p2 fun q => (propSellHotel q).1) p2
              fun q => { q with houses := 0, ownerId := none, isMortgaged := false }) pos = _
            rw [getProperty_setPropB_ne _ p2 pos
              (fun q => { q with houses := 0, ownerId := none, isMortgaged := false })
              hne (fun p => rfl),
              getProperty_setPropB_ne s.board p2 pos (fun q => (propSellHotel q).1)
              hne propSellHotel_position]
      · rw [if_neg hh]
        cases hin : getProperty s.board p2 with
        | none => rfl
        | some prop2 =>
            dsimp only
            show getProperty (setPropB s.board p2
              fun q => { q with houses := 0, ownerId := none, isMortgaged := false }) pos = _
            rw [getProperty_setPropB_ne s.board p2 pos
              (fun q => { q with houses := 0, ownerId := none, isMortgaged := false })
              hne (fun p => rfl)]

/-- Liquidating a present position clears it back to the bank. -/
theorem liquidateProp_effect (s : GameState) (pos : Nat) (q : Property)
    (hq : getProperty s.board pos = some q) : clearedAt (liquidateProp s pos) pos := by
  unfold liquidateProp
  rw [hq]
  dsimp only
  by_cases hh : q.hasHotel = true
  · rw [if_pos hh]
    have hget1b : getProperty (setPropB s.board pos (fun r => (propSellHotel r).1)) pos =
        some { q with hasHotel := false, houses := 4 } := by
      rw [getProperty_setPropB s.board pos (fun r => (propSellHotel r).1)
        q hq propSellHotel_position, propSellHotel_eq q hh]
    have hget1 : getProperty (returnHotel (setProp s pos
        (fun r => (propSellHotel r).1))).board pos =
        some { q with hasHotel := false, houses := 4 } := hget1b
    rw [hget1]
    dsimp only
    refine ⟨{ { q with hasHotel := false, houses := 4 } with
      houses := 0, ownerId := none, isMortgaged := false }, ?_, rfl, rfl, rfl, rfl⟩
    show getProperty (setPropB (setPropB s.board pos fun r => (propSellHotel r).1) pos
      fun r => { r with houses := 0, ownerId := none, isMortgaged := false }) pos = _
    rw [getProperty_setPropB _ pos
      (fun r => { r with houses := 0, ownerId := none, isMortgaged := false })
      { q with hasHotel := false, houses := 4 } hget1b (fun p => rfl)]
  · rw [if_neg hh]
    rw [hq]
    dsimp only
    refine ⟨{ q with houses := 0, ownerId := none, isMortgaged := false }, ?_, rfl, rfl, rfl, ?_⟩
    · show getProperty (setPropB s.board pos
        fun r => { r with houses := 0, ownerId := none, isMortgaged := false }) pos = _
      rw [getProperty_setPropB s.board pos
        (fun r => { r with houses := 0, ownerId := none, isMortgaged := false })
        q hq (fun p => rfl)]
    · show q.hasHotel = false
      revert hh
      cases q.hasHotel <;> simp

/-- One liquidation step keeps a cleared position cleared. -/
theorem liquidateProp_pres (s : GameState) (p2 pos : Nat) (h : clearedAt s pos) :
    clearedAt (liquidateProp s p2) pos := by
  by_cases he : pos = p2
  · subst he
    obtain ⟨q, hq, _, _, _, _⟩ := h
    exact liquidateProp_effect s pos q hq
  · obtain ⟨q, hq, h1, h2, h3, h4⟩ := h
    refine ⟨q, ?_, h1, h2, h3, h4⟩
    rw [liquidateProp_board_ne s p2 pos he]
    exact hq

/-- Liquidation folds keep a cleared position cleared. -/
theorem liquidate_fold_pres (L : List Nat) : ∀ (s : GameState) (pos : Nat),
    clearedAt s pos → clearedAt (L.foldl (fun s pos => liquidateProp s pos) s) pos := by
  induction L with
  | nil => exact fun s pos h => h
  | cons a t ih => exact fun s pos h => ih _ pos (liquidateProp_pres s a pos h)

/-- After the liquidation fold, every processed present position is
cleared. -/
theorem liquidate_fold_board (L : List Nat) : ∀ (s : GameState) (pos : Nat),
    pos ∈ L → (getProperty s.board pos).isSome = true →
    clearedAt (L.foldl (fun s pos => liquidateProp s pos) s) pos := by
  induction L with
  | nil => intro s pos h; cases h
  | cons a t ih =>
      intro s pos hmem hpresent
      rw [List.foldl_cons]
      by_cases he : pos = a
      · subst he
        cases hq : getProperty s.board pos with
        | none => rw [hq] at hpresent; cases hpresent
        | some q => exact liquidate_fold_pres t _ pos (liquidateProp_effect s pos q hq)
      · have hmem' : pos ∈ t := by
          cases List.mem_cons.mp hmem with
          | inl h => exact absurd h he
          | inr h => exact h
        apply ih _ pos hmem'
        rw [liquidateProp_board_ne s a pos he]
        exact hpresent

/-- Through the creditor-transfer fold the creditor keeps the received cash
and jail cards and accumulates every processed present position. -/
theorem transfer_fold_creditor (cid : String) (L : List Nat) : ∀ (s : GameState) (c : Player),
    findPlayer s cid = some c →
    ∃ c', findPlayer (L.foldl (transferPropStep cid) s) cid = some c' ∧
      c'.money = c.money ∧ c'.jailCards = c.jailCards ∧
      (∀ x ∈ c.properties, x ∈ c'.properties) ∧
      (∀ x ∈ L, (getProperty s.board x).isSome = true → x ∈ c'.properties) := by
  induction L with
  | nil =>
      intro s c hc
      exact ⟨c, hc, rfl, rfl, fun x hx => hx, fun x hx => absurd hx (List.not_mem_nil x)⟩
  | cons a t ih =>
      intro s c hc
      rw [List.foldl_cons]
      cases hp2 : getProperty s.board a with
      | none =>
          have hstep : transferPropStep cid s a = s := by
            unfold transferPropStep
            rw [hp2]
          rw [hstep]
          obtain ⟨c', h1, h2, h3, h4, h5⟩ := ih s c hc
          refine ⟨c', h1, h2, h3, h4, fun x hx hpresent => ?_⟩
          cases List.mem_cons.mp hx with
          | inl he => subst he; rw [hp2] at hpresent; cases hpresent
          | inr ht => exact h5 x ht hpresent
      | some q =>
          have hcid : c.id = cid := findPlayer_id s cid c hc
          have hstep : findPlayer (transferPropStep cid s a) cid = some (c.addProperty a) := by
            unfold transferPropStep
            rw [hp2]
            dsimp only
            rw [findPlayer_updatePlayer _ cid cid (fun r => r.addProperty a) (fun p => rfl)]
            show (findPlayer s cid).map _ = _
            rw [hc]
            simp [hcid]
          obtain ⟨c', h1, h2, h3, h4, h5⟩ := ih (transferPropStep cid s a) (c.addProperty a) hstep
          refine ⟨c', h1, h2, h3, fun x hx => h4 x (addProperty_mono c x a hx),
            fun x hx hpresent => ?_⟩
          cases List.mem_cons.mp hx with
          | inl he => rw [he]; exact h4 a (addProperty_mem_self c a)
          | inr ht =>
              apply h5 x ht
              show (getProperty (transferPropStep cid s a).board x).isSome = true
              unfold transferPropStep
              rw [hp2]
              dsimp only
              show (getProperty (setPropB s.board a
                fun r => { r with ownerId := some cid }) x).isSome = true
              rw [getProperty_setPropB_isSome s.board a x
                (fun r => { r with ownerId := some cid }) (fun p => rfl)]
              exact hpresent

/-- The creditor-transfer fold never touches other players. -/
theorem transfer_fold_other (cid pid : String) (hne : pid ≠ cid) (L : List Nat) :
    ∀ (s : GameState) (player : Player), findPlayer s pid = some player →
    findPlayer (L.foldl (transferPropStep cid) s) pid = some player := by
  induction L with
  | nil => exact fun s player h => h
  | cons a t ih =>
      intro s player h
      rw [List.foldl_cons]
      apply ih
      unfold transferPropStep
      cases hp2 : getProperty s.board a with
      | none => exact h
      | some q =>
          dsimp only
          rw [findPlayer_updatePlayer _ cid pid (fun r => r.addProperty a) (fun p => rfl)]
          show (findPlayer s pid).map _ = _
          rw [h]
          have hidp : player.id = pid := findPlayer_id s pid player h
          simp [hidp, hne]

/-- The liquidation fold never touches the player roster. -/
theorem liquidate_fold_players (L : List Nat) : ∀ s : GameState,
    ((L.foldl (fun s pos => liquidateProp s pos) s)).players = s.players := by
  induction L with
  | nil => exact fun s => rfl
  | cons a t ih =>
      intro s
      rw [List.foldl_cons, ih, liquidateProp_players]

/-- Claim C3.  With a creditor, bankruptcy hands all cash, jail cards and
properties (mortgage state intact) to the creditor; without one, every
property of the player is liquidated back to the bank, unowned and
unmortgaged; in both cases the player ends BANKRUPT with an empty property
set ("liquidated back to the bank" is expressed by preservation of the bank
conservation invariant). -/
theorem bankruptcy_transfers_assets (s : GameState) (pid cid : String)
    (player creditor : Player)
    (hp : findPlayer s pid = some player)
    (hc : findPlayer s cid = some creditor)
    (hne : pid ≠ cid)
    (hprops : ∀ pos ∈ player.properties, (getProperty s.board pos).isSome = true) :
    (∃ c', findPlayer (handleBankruptcy s pid (some cid)) cid = some c' ∧
      c'.money = creditor.money + player.money ∧
      c'.jailCards = creditor.jailCards + player.jailCards ∧
      ∀ pos ∈ player.properties, pos ∈ c'.properties) ∧
    (∀ pos ∈ player.properties, ∀ q, getProperty s.board pos = some q →
      ∃ q', getProperty (handleBankruptcy s pid (some cid)).board pos = some q' ∧
        q'.ownerId = some cid ∧ q'.isMortgaged = q.isMortgaged) ∧
    (∃ p', findPlayer (handleBankruptcy s pid (some cid)) pid = some p' ∧
      p'.state = PlayerState.BANKRUPT ∧ p'.properties = []) ∧
    (∀ pos ∈ player.properties,
      ∃ q', getProperty (handleBankruptcy s pid none).board pos = some q' ∧
        q'.ownerId = none ∧ q'.isMortgaged = false ∧ q'.houses = 0 ∧ q'.hasHotel = false) ∧
    (∃ p', findPlayer (handleBankruptcy s pid none) pid = some p' ∧
      p'.state = PlayerState.BANKRUPT ∧ p'.properties = []) ∧
    (bankInv s → bankInv (handleBankruptcy s pid none)) := by
  have hcid : creditor.id = cid := findPlayer_id s cid creditor hc
  have hpidI : player.id = pid := findPlayer_id s pid player hp
  have hH : handleBankruptcy s pid (some cid) =
      updatePlayer (player.properties.foldl (transferPropStep cid)
        (updatePlayer s cid (fun c =>
          { c with
            money := c.money + player.money
            jailCards := c.jailCards + player.jailCards }))) pid Player.declareBankrupt := by
    unfold handleBankruptcy
    rw [hp]
    dsimp only [Option.bind]
    rw [hc]
    dsimp only
    rw [hcid]
  have hB : handleBankruptcy s pid none =
      updatePlayer (player.properties.foldl (fun s pos => liquidateProp s pos) s)
        pid Player.declareBankrupt := by
    unfold handleBankruptcy
    rw [hp]
    dsimp only [Option.bind]
  have hs0 : findPlayer (updatePlayer s cid (fun c =>
      { c with
        money := c.money + player.money
        jailCards := c.jailCards + player.jailCards })) cid =
      some { creditor with
        money := creditor.money + player.money
        jailCards := creditor.jailCards + player.jailCards } := by
    rw [findPlayer_updatePlayer s cid cid (fun c =>
      { c with
        money := c.money + player.money
        jailCards := c.jailCards + player.jailCards }) (fun p => rfl), hc]
    simp [hcid]
  obtain ⟨c', h1, h2, h3, h4, h5⟩ :=
    transfer_fold_creditor cid player.properties _ _ hs0
  have hcid' : c'.id = cid := findPlayer_id _ cid c' h1
  have hfold_pid : findPlayer (player.properties.foldl (transferPropStep cid)
      (updatePlayer s cid (fun c =>
        { c with
          money := c.money + player.money
          jailCards := c.jailCards + player.jailCards }))) pid = some player := by
    apply transfer_fold_other cid pid hne
    rw [findPlayer_updatePlayer s cid pid (fun c =>
      { c with
        money := c.money + player.money
        jailCards := c.jailCards + player.jailCards }) (fun p => rfl), hp]
    simp [hpidI, hne]
  refine ⟨?_, ?_, ?_, ?_, ?_, fun hinv => bankInv_handleBankruptcy s pid none hinv⟩
  · refine ⟨c', ?_, h2, h3, fun pos hmem => h5 pos hmem (hprops pos hmem)⟩
    rw [hH, findPlayer_updatePlayer _ pid cid Player.declareBankrupt (fun p => rfl), h1]
    simp [hcid', Ne.symm hne]
  · intro pos hmem q hq
    obtain ⟨q', hq', ho, hm⟩ :=
      transfer_fold_board cid player.properties
        (updatePlayer s cid (fun c =>
          { c with
            money := c.money + player.money
            jailCards := c.jailCards + player.jailCards })) pos q hmem hq
    exact ⟨q', by rw [hH]; exact hq', ho, hm⟩
  · refine ⟨player.declareBankrupt, ?_, rfl, rfl⟩
    rw [hH, findPlayer_updatePlayer _ pid pid Player.declareBankrupt (fun p => rfl), hfold_pid]
    simp [hpidI]
  · intro pos hmem
    obtain ⟨q', hq', h1b, h2b, h3b, h4b⟩ :=
      liquidate_fold_board player.properties s pos hmem (hprops pos hmem)
    exact ⟨q', by rw [hB]; exact hq', h1b, h2b, h3b, h4b⟩
  · refine ⟨player.declareBankrupt, ?_, rfl, rfl⟩
    have hfold : findPlayer (player.properties.foldl (fun s pos => liquidateProp s pos) s) pid =
        some player := by
      unfold findPlayer
      rw [liquidate_fold_players]
      exact hp
    rw [hB, findPlayer_updatePlayer _ pid pid Player.declareBankrupt (fun p => rfl), hfold]
    simp [hpidI]

/-- Board state for the C3 witness: A owns Mediterranean (mortgaged) and
Baltic (two houses). -/
def c3Muts : Nat → PropMut := fun pos =>
  if pos = 1 then { ownerId := some "A", isMortgaged := true }
  else if pos = 3 then { ownerId := some "A", houses := 2 }
  else {}

/-- Bankrupting player of the C3 witness. -/
def c3A : Player :=
  { name := "Alice", id := "A", money := 120, jailCards := 2, properties := [1, 3] }

/-- Creditor of the C3 witness. -/
def c3B : Player := { name := "Bob", id := "B", money := 700 }

/-- The C3 witness state. -/
def c3State : GameState :=
  { board := mkStdBoard c3Muts, players := [c3A, c3B], playerOrder := ["A", "B"],
    currentPlayerIndex := 0, phase := .POST_ROLL, turnNumber := 2,
    housesAvailable := 30, hotelsAvailable := 12,
    chance := emptyDeck .CHANCE, communityChest := emptyDeck .COMMUNITY_CHEST }

/-- Witness for C3: at the concrete state, declaring bankruptcy in favor of
Bob hands him Alice's 120 dollars, 2 jail cards and both properties. -/
theorem bankruptcy_transfers_assets_witness :
    findPlayer c3State "A" = some c3A ∧ findPlayer c3State "B" = some c3B ∧
    (∃ c', findPlayer (handleBankruptcy c3State "A" (some "B")) "B" = some c' ∧
      c'.money = c3B.money + c3A.money ∧
      c'.jailCards = c3B.jailCards + c3A.jailCards ∧
      ∀ pos ∈ c3A.properties, pos ∈ c'.properties) :=
  ⟨by decide, by decide,
    (bankruptcy_transfers_assets c3State "A" "B" c3A c3B (by decide) (by decide)
      (by decide) (by decide)).1⟩

/-! Claim C4: no gameplay operation leaves a player's cash negative.  Money
only decreases through the guarded Player.removeMoney, and only increases
by non-negative amounts; the card decks enter the invariant because a card
credit adds the card's value, which is non-negative for every card of the
standard decks and stays so under any membership-preserving shuffle. -/

/-- A card whose monetary credits are non-negative.  Every card of the
standard Chance and Community Chest decks satisfies this. -/
def cardOK (c : Card) : Bool :=
  match c.action with
  | .COLLECT_MONEY => decide (0 ≤ c.value)
  | .COLLECT_FROM_PLAYERS => decide (0 ≤ c.value)
  | .PAY_TO_PLAYERS => decide (0 ≤ c.value)
  | _ => true

/-- Every card of a deck, in the draw or the discard pile, is cardOK. -/
def deckOK (d : CardDeck) : Prop :=
  (∀ c ∈ d.cards, cardOK c = true) ∧ (∀ c ∈ d.discard, cardOK c = true)

/-- Both decks of a game state carry only cardOK cards. -/
def decksOK (s : GameState) : Prop := deckOK s.chance ∧ deckOK s.communityChest

/-- Claim C4's invariant: every player's cash is non-negative. -/
def moneyNonneg (s : GameState) : Prop := ∀ p ∈ s.players, 0 ≤ p.money

instance (d : CardDeck) : Decidable (deckOK d) := by
  unfold deckOK; infer_instance

instance (s : GameState) : Decidable (decksOK s) := by
  unfold decksOK; infer_instance

instance (s : GameState) : Decidable (moneyNonneg s) := by
  unfold moneyNonneg; infer_instance

/-- The guarded Player.remove_money keeps cash non-negative whatever the
amount: it deducts only when the balance suffices. -/
theorem removeMoney_nonneg (p : Player) (a : Int) (h : 0 ≤ p.money) :
    0 ≤ (p.removeMoney a).money := by
  unfold Player.removeMoney
  split
  · next h2 => show 0 ≤ p.money - a; omega
  · exact h

/-- Adding a non-negative amount keeps cash non-negative. -/
theorem addMoney_nonneg (p : Player) (a : Int) (h : 0 ≤ p.money) (ha : 0 ≤ a) :
    0 ≤ (p.addMoney a).money := by
  show 0 ≤ p.money + a
  omega

/-- Player.move_to only ever credits the GO salary. -/
theorem moveTo_money (p : Player) (pos : Nat) (b : Bool) (h : 0 ≤ p.money) :
    0 ≤ ((p.moveTo pos b).1).money := by
  unfold Player.moveTo
  split
  · show 0 ≤ p.money + 200; omega
  · exact h

/-- updatePlayer preserves the cash invariant when the update does. -/
theorem moneyNonneg_updatePlayer (s : GameState) (pid : String) (f : Player → Player)
    (hf : ∀ p, 0 ≤ p.money → 0 ≤ (f p).money) (h : moneyNonneg s) :
    moneyNonneg (updatePlayer s pid f) := by
  intro q hq
  obtain ⟨p, hp, rfl⟩ := List.mem_map.mp hq
  by_cases hc : p.id = pid
  · rw [if_pos hc]; exact hf p (h p hp)
  · rw [if_neg hc]; exact h p hp

/-- Mapping a cash-preserving update over a roster preserves the invariant. -/
theorem nonneg_map (L : List Player) (f : Player → Player)
    (hf : ∀ p, 0 ≤ p.money → 0 ≤ (f p).money) (h : ∀ p ∈ L, 0 ≤ p.money) :
    ∀ p ∈ L.map f, 0 ≤ p.money := by
  intro q hq
  obtain ⟨p, hp, rfl⟩ := List.mem_map.mp hq
  exact hf p (h p hp)

/-- A state with the same roster and decks inherits the invariant. -/
theorem inv_of_parts (s2 s : GameState) (hp : s2.players = s.players)
    (hc : s2.chance = s.chance) (hcc : s2.communityChest = s.communityChest)
    (h : moneyNonneg s ∧ decksOK s) : moneyNonneg s2 ∧ decksOK s2 :=
  ⟨fun q hq => h.1 q (hp ▸ hq), ⟨by rw [hc]; exact h.2.1, by rw [hcc]; exact h.2.2⟩⟩

/-- Returning a cardOK card to a deck keeps the deck well-stocked. -/
theorem deckOK_returnCard (d : CardDeck) (c : Card) (hd : deckOK d) (hc : cardOK c = true) :
    deckOK (deckReturnCard d c) := by
  refine ⟨hd.1, fun x hx => ?_⟩
  rcases List.mem_append.mp hx with h1 | h1
  · exact hd.2 x h1
  · rw [List.mem_singleton.mp h1]; exact hc

/-- Drawing from a well-stocked deck yields a cardOK card and leaves the
deck well-stocked, for any membership-preserving shuffle. -/
theorem deckDraw_OK (sh : List Card → List Card)
    (hsh : ∀ l, (∀ c ∈ l, cardOK c = true) → ∀ c ∈ sh l, cardOK c = true)
    (d : CardDeck) (hd : deckOK d) (c : Card) (d2 : CardDeck)
    (h : deckDraw sh d = some (c, d2)) : cardOK c = true ∧ deckOK d2 := by
  have hd1 : deckOK (if d.cards.isEmpty then
      { d with cards := sh d.discard, discard := [] } else d) := by
    split
    · exact ⟨hsh d.discard hd.2, fun x hx => nomatch hx⟩
    · exact hd
  unfold deckDraw at h
  dsimp only at h
  revert h hd1
  generalize (if d.cards.isEmpty then
      { d with cards := sh d.discard, discard := [] } else d) = d1
  intro h hd1
  cases hcs : d1.cards with
  | nil => rw [hcs] at h; cases h
  | cons c0 rest =>
      rw [hcs] at h
      dsimp only at h
      have hmem : c0 ∈ d1.cards := by rw [hcs]; exact List.mem_cons_self c0 rest
      have hrest : ∀ x ∈ rest, cardOK x = true := fun x hx =>
        hd1.1 x (by rw [hcs]; exact List.mem_cons_of_mem c0 hx)
      simp only [Option.some.injEq, Prod.mk.injEq] at h
      obtain ⟨hc0, hd2⟩ := h
      subst hc0
      subst hd2
      refine ⟨hd1.1 c0 hmem, ?_⟩
      split
      · exact ⟨hrest, hd1.2⟩
      · refine ⟨hrest, fun x hx => ?_⟩
        rcases List.mem_append.mp hx with h1 | h1
        · exact hd1.2 x h1
        · rw [List.mem_singleton.mp h1]; exact hd1.1 c0 hmem

/-- The birthday-card fold keeps the collected total non-negative and every
processed player's cash non-negative. -/
theorem collect_fold_nonneg (pid : String) (v : Int) (hv : 0 ≤ v) :
    ∀ (L : List Player) (acc : Int × List Player), 0 ≤ acc.1 →
      (∀ q ∈ acc.2, 0 ≤ q.money) → (∀ q ∈ L, 0 ≤ q.money) →
      0 ≤ (L.foldl (fun (acc : Int × List Player) q =>
        if q.state ≠ PlayerState.BANKRUPT ∧ q.id ≠ pid then
          (acc.1 + min v q.money, acc.2 ++ [q.removeMoney (min v q.money)])
        else (acc.1, acc.2 ++ [q])) acc).1 ∧
      ∀ q ∈ (L.foldl (fun (acc : Int × List Player) q =>
        if q.state ≠ PlayerState.BANKRUPT ∧ q.id ≠ pid then
          (acc.1 + min v q.money, acc.2 ++ [q.removeMoney (min v q.money)])
        else (acc.1, acc.2 ++ [q])) acc).2, 0 ≤ q.money := by
  intro L
  induction L with
  | nil => exact fun acc h1 h2 _ => ⟨h1, h2⟩
  | cons a t ih =>
      intro acc h1 h2 h3
      simp only [List.foldl_cons]
      by_cases hc : a.state ≠ PlayerState.BANKRUPT ∧ a.id ≠ pid
      · rw [if_pos hc]
        apply ih
        · have : 0 ≤ min v a.money := le_min hv (h3 a (List.mem_cons_self a t))
          show 0 ≤ acc.1 + min v a.money
          omega
        · intro q hq
          rcases List.mem_append.mp hq with hq1 | hq1
          · exact h2 q hq1
          · rw [List.mem_singleton.mp hq1]
            exact removeMoney_nonneg a _ (h3 a (List.mem_cons_self a t))
        · exact fun q hq => h3 q (List.mem_cons_of_mem a hq)
      · rw [if_neg hc]
        apply ih
        · exact h1
        · intro q hq
          rcases List.mem_append.mp hq with hq1 | hq1
          · exact h2 q hq1
          · rw [List.mem_singleton.mp hq1]
            exact h3 a (List.mem_cons_self a t)
        · exact fun q hq => h3 q (List.mem_cons_of_mem a hq)

/-- Game._handle_property_landing keeps every balance non-negative (rent
moves through the guarded remove_money before being credited) and never
touches the decks. -/
theorem handlePropertyLanding_cash (s : GameState) (pid : String) (d : DiceResult)
    (h : moneyNonneg s ∧ decksOK s) :
    moneyNonneg (handlePropertyLanding s pid d).st ∧
      decksOK (handlePropertyLanding s pid d).st := by
  unfold handlePropertyLanding
  dsimp only
  repeat' split
  all_goals first
    | exact h
    | exact ⟨moneyNonneg_updatePlayer _ _ _ (fun p hp => removeMoney_nonneg p _ hp) h.1, h.2⟩
    | exact ⟨moneyNonneg_updatePlayer _ _ _
          (fun p hp => addMoney_nonneg p _ hp (Int.natCast_nonneg _))
        (moneyNonneg_updatePlayer _ _ _ (fun p hp => removeMoney_nonneg p _ hp) h.1), h.2⟩

/-- Cash non-negativity and deck stocking are preserved through landing,
card drawing and card execution, at every fuel. -/
theorem landingCashInv (sh : List Card → List Card)
    (hsh : ∀ l, (∀ c ∈ l, cardOK c = true) → ∀ c ∈ sh l, cardOK c = true) :
    ∀ fuel : Nat,
    (∀ s pid d, moneyNonneg s ∧ decksOK s →
      moneyNonneg (handleLanding sh fuel s pid d).st ∧
        decksOK (handleLanding sh fuel s pid d).st) ∧
    (∀ s pid ct d, moneyNonneg s ∧ decksOK s →
      moneyNonneg (handleCard sh fuel s pid ct d).st ∧
        decksOK (handleCard sh fuel s pid ct d).st) ∧
    (∀ s pid card d, cardOK card = true → moneyNonneg s ∧ decksOK s →
      moneyNonneg (executeCard sh fuel s pid card d).st ∧
        decksOK (executeCard sh fuel s pid card d).st) := by
  intro fuel
  induction fuel with
  | zero => exact ⟨fun s pid d h => h, fun s pid ct d h => h, fun s pid card d hc h => h⟩
  | succ n ih =>
      refine ⟨fun s pid d h => ?_, fun s pid ct d h => ?_, fun s pid card d hcOK h => ?_⟩
      · unfold handleLanding
        dsimp only
        repeat' split
        all_goals first
          | exact h
          | exact ih.2.1 _ _ _ _ h
          | exact handlePropertyLanding_cash _ _ _ h
          | exact ⟨moneyNonneg_updatePlayer _ _ _ (fun p hp => hp) h.1, h.2⟩
          | exact ⟨moneyNonneg_updatePlayer _ _ _
              (fun p hp => removeMoney_nonneg p _ hp) h.1, h.2⟩
      · unfold handleCard
        cases ct with
        | CHANCE =>
            dsimp only
            cases hdd : deckDraw sh s.chance with
            | none => exact h
            | some pr =>
                obtain ⟨card, deck⟩ := pr
                obtain ⟨hcOK, hdOK⟩ := deckDraw_OK sh hsh s.chance h.2.1 card deck hdd
                exact ih.2.2 { s with chance := deck } pid card d hcOK ⟨h.1, hdOK, h.2.2⟩
        | COMMUNITY_CHEST =>
            dsimp only
            cases hdd : deckDraw sh s.communityChest with
            | none => exact h
            | some pr =>
                obtain ⟨card, deck⟩ := pr
                obtain ⟨hcOK, hdOK⟩ := deckDraw_OK sh hsh s.communityChest h.2.2 card deck hdd
                exact ih.2.2 { s with communityChest := deck } pid card d hcOK ⟨h.1, h.2.1, hdOK⟩
      · unfold executeCard
        dsimp only
        cases hfp : findPlayer s pid with
        | none => exact h
        | some player =>
            cases hca : card.action with
            | COLLECT_MONEY =>
                have hv : 0 ≤ card.value := by
                  unfold cardOK at hcOK
                  rw [hca] at hcOK
                  exact of_decide_eq_true hcOK
                exact ⟨moneyNonneg_updatePlayer _ _ _
                  (fun p hp => addMoney_nonneg p _ hp hv) h.1, h.2⟩
            | PAY_MONEY =>
                dsimp only
                split
                · exact ⟨moneyNonneg_updatePlayer _ _ _
                    (fun p hp => removeMoney_nonneg p _ hp) h.1, h.2⟩
                · exact h
            | COLLECT_FROM_PLAYERS =>
                have hv : 0 ≤ card.value := by
                  unfold cardOK at hcOK
                  rw [hca] at hcOK
                  exact of_decide_eq_true hcOK
                have hr := collect_fold_nonneg pid card.value hv s.players (0, [])
                  le_rfl (fun q hq => nomatch hq) h.1
                exact ⟨moneyNonneg_updatePlayer _ _ _
                  (fun p hp => addMoney_nonneg p _ hp hr.1) hr.2, h.2⟩
            | PAY_TO_PLAYERS =>
                have hv : 0 ≤ card.value := by
                  unfold cardOK at hcOK
                  rw [hca] at hcOK
                  exact of_decide_eq_true hcOK
                dsimp only
                split
                · refine ⟨?_, h.2⟩
                  exact nonneg_map _ _
                    (fun p hp => by
                      split
                      · exact addMoney_nonneg p _ hp hv
                      · exact hp)
                    (moneyNonneg_updatePlayer s pid _
                      (fun p hp => removeMoney_nonneg p _ hp) h.1)
                · exact h
            | MOVE_TO =>
                exact ih.1 _ pid d ⟨moneyNonneg_updatePlayer _ _ _
                  (fun p hp => moveTo_money p _ _ hp) h.1, h.2⟩
            | MOVE_BACK =>
                exact ih.1 _ pid d ⟨moneyNonneg_updatePlayer _ _ _
                  (fun p hp => moveTo_money p _ _ hp) h.1, h.2⟩
            | GO_TO_JAIL =>
                exact ⟨moneyNonneg_updatePlayer _ _ _ (fun p hp => hp) h.1, h.2⟩
            | GET_OUT_OF_JAIL =>
                exact ⟨moneyNonneg_updatePlayer _ _ _ (fun p hp => hp) h.1, h.2⟩
            | REPAIRS =>
                dsimp only
                split
                · exact ⟨moneyNonneg_updatePlayer _ _ _
                    (fun p hp => removeMoney_nonneg p _ hp) h.1, h.2⟩
                · exact h
            | MOVE_FORWARD => exact h

/-- Game._move_player preserves the cash invariant. -/
theorem movePlayer_cash (sh : List Card → List Card)
    (hsh : ∀ l, (∀ c ∈ l, cardOK c = true) → ∀ c ∈ sh l, cardOK c = true)
    (fuel : Nat) (s : GameState) (pid : String) (spaces : Nat) (d : DiceResult)
    (h : moneyNonneg s ∧ decksOK s) :
    moneyNonneg (movePlayer sh fuel s pid spaces d).st ∧
      decksOK (movePlayer sh fuel s pid spaces d).st := by
  unfold movePlayer
  split
  · exact h
  · exact (landingCashInv sh hsh fuel).1 _ _ _
      ⟨moneyNonneg_updatePlayer _ _ _ (fun p hp => moveTo_money p _ _ hp) h.1, h.2⟩

/-- Game._handle_jail_roll preserves the cash invariant: bail moves through
the guarded remove_money. -/
theorem handleJailRoll_cash (sh : List Card → List Card)
    (hsh : ∀ l, (∀ c ∈ l, cardOK c = true) → ∀ c ∈ sh l, cardOK c = true)
    (fuel : Nat) (s : GameState) (pid : String) (d : DiceResult)
    (h : moneyNonneg s ∧ decksOK s) :
    moneyNonneg (handleJailRoll sh fuel s pid d).st ∧
      decksOK (handleJailRoll sh fuel s pid d).st := by
  unfold handleJailRoll
  dsimp only
  repeat' split
  all_goals first
    | exact h
    | exact movePlayer_cash sh hsh _ _ _ _ _
        ⟨moneyNonneg_updatePlayer _ _ _ (fun p hp => hp) h.1, h.2⟩
    | exact movePlayer_cash sh hsh _ _ _ _ _
        ⟨moneyNonneg_updatePlayer _ _ _ (fun p hp => removeMoney_nonneg p _ hp) h.1, h.2⟩

/-- Game.roll_dice preserves the cash invariant. -/
theorem rollDice_cash (sh : List Card → List Card)
    (hsh : ∀ l, (∀ c ∈ l, cardOK c = true) → ∀ c ∈ sh l, cardOK c = true)
    (fuel : Nat) (s : GameState) (pid : String) (d : DiceResult)
    (h : moneyNonneg s ∧ decksOK s) :
    moneyNonneg (rollDice sh fuel s pid d).st ∧ decksOK (rollDice sh fuel s pid d).st := by
  unfold rollDice
  dsimp only
  repeat' split
  all_goals first
    | exact h
    | exact handleJailRoll_cash sh hsh _ _ _ _
        ⟨moneyNonneg_updatePlayer _ _ _ (fun p hp => hp) h.1, h.2⟩
    | exact ⟨moneyNonneg_updatePlayer _ _ _ (fun p hp => hp)
        (moneyNonneg_updatePlayer _ _ _ (fun p hp => hp)
          (moneyNonneg_updatePlayer _ _ _ (fun p hp => hp) h.1)), h.2⟩
    | exact movePlayer_cash sh hsh _ _ _ _ _
        ⟨moneyNonneg_updatePlayer _ _ _ (fun p hp => hp)
          (moneyNonneg_updatePlayer _ _ _ (fun p hp => hp) h.1), h.2⟩

/-- RuleEngine.use_house preserves the cash invariant. -/
theorem useHouse_cash (s : GameState) (h : moneyNonneg s ∧ decksOK s) :
    moneyNonneg (useHouse s) ∧ decksOK (useHouse s) := by
  unfold useHouse
  split
  · exact h
  · exact h

/-- RuleEngine.use_hotel preserves the cash invariant. -/
theorem useHotel_cash (s : GameState) (h : moneyNonneg s ∧ decksOK s) :
    moneyNonneg (useHotel s) ∧ decksOK (useHotel s) := by
  unfold useHotel
  split
  · exact h
  · exact h

/-- Game._end_game preserves the cash invariant. -/
theorem endGame_cash (s : GameState) (h : moneyNonneg s ∧ decksOK s) :
    moneyNonneg (endGame s) ∧ decksOK (endGame s) := by
  unfold endGame
  dsimp only
  split
  · exact h
  · exact h

/-- Game._advance_turn preserves the cash invariant: the per-turn resets
never touch cash. -/
theorem advanceTurn_cash (s : GameState) (h : moneyNonneg s ∧ decksOK s) :
    moneyNonneg (advanceTurn s) ∧ decksOK (advanceTurn s) := by
  unfold advanceTurn
  dsimp only
  repeat' split
  all_goals first
    | exact h
    | exact ⟨moneyNonneg_updatePlayer _ _ _ (fun p hp => hp) h.1, h.2⟩
    | exact ⟨moneyNonneg_updatePlayer _ _ _ (fun p hp => hp)
        (moneyNonneg_updatePlayer _ _ _ (fun p hp => hp) h.1), h.2⟩

/-- Claim C4.  Every gameplay operation keeps every player's cash
non-negative (and the decks well-stocked): cash only leaves a player
through the guarded remove_money, which deducts nothing when the balance
is insufficient - the call then blocks the phase instead - and every
credit is non-negative.  The shuffle hypothesis says shuffling only
permutes cards. -/
theorem player_cash_nonnegative (sh : List Card → List Card)
    (hsh : ∀ l, (∀ c ∈ l, cardOK c = true) → ∀ c ∈ sh l, cardOK c = true)
    (fuel : Nat) (s : GameState) (a : Act)
    (hm : moneyNonneg s) (hd : decksOK s) :
    moneyNonneg (step sh fuel s a).st ∧ decksOK (step sh fuel s a).st := by
  cases a with
  | rollDiceA pid d => exact rollDice_cash sh hsh fuel s pid d ⟨hm, hd⟩
  | buyPropertyA pid =>
      unfold step buyProperty
      dsimp only
      repeat' split
      all_goals first
        | exact ⟨hm, hd⟩
        | exact ⟨moneyNonneg_updatePlayer _ _ _ (fun p hp => hp)
            (moneyNonneg_updatePlayer _ _ _ (fun p hp => removeMoney_nonneg p _ hp) hm), hd⟩
  | buildHouseA pid pos =>
      unfold step buildHouse
      dsimp only
      repeat' split
      all_goals first
        | exact ⟨hm, hd⟩
        | exact useHouse_cash _
            ⟨moneyNonneg_updatePlayer _ _ _ (fun p hp => removeMoney_nonneg p _ hp) hm, hd⟩
  | buildHotelA pid pos =>
      unfold step buildHotel
      dsimp only
      repeat' split
      all_goals first
        | exact ⟨hm, hd⟩
        | exact useHotel_cash _
            ⟨moneyNonneg_updatePlayer _ _ _ (fun p hp => removeMoney_nonneg p _ hp) hm, hd⟩
  | sellBuildingA pid pos =>
      unfold step sellBuilding
      dsimp only
      repeat' split
      all_goals first
        | exact ⟨hm, hd⟩
        | exact ⟨moneyNonneg_updatePlayer _ _ _
            (fun p hp => addMoney_nonneg p _ hp (Int.natCast_nonneg _)) hm, hd⟩
  | mortgageA pid pos =>
      unfold step mortgageProperty
      dsimp only
      repeat' split
      all_goals first
        | exact ⟨hm, hd⟩
        | exact ⟨moneyNonneg_updatePlayer _ _ _
            (fun p hp => addMoney_nonneg p _ hp (Int.natCast_nonneg _)) hm, hd⟩
  | unmortgageA pid pos =>
      unfold step unmortgageProperty
      dsimp only
      repeat' split
      all_goals first
        | exact ⟨hm, hd⟩
        | exact ⟨moneyNonneg_updatePlayer _ _ _
            (fun p hp => removeMoney_nonneg p _ hp) hm, hd⟩
  | payBailA pid =>
      unfold step payBail
      dsimp only
      repeat' split
      all_goals first
        | exact ⟨hm, hd⟩
        | exact ⟨moneyNonneg_updatePlayer _ _ _
            (fun p hp => removeMoney_nonneg p _ hp) hm, hd⟩
  | useJailCardA pid =>
      unfold step useJailCard
      dsimp only
      repeat' split
      all_goals first
        | exact ⟨hm, hd⟩
        | exact ⟨moneyNonneg_updatePlayer _ _ _ (fun p hp => hp) hm,
            ⟨deckOK_returnCard _ _ hd.1 (by decide), hd.2⟩⟩
  | endTurnA pid =>
      unfold step endTurn
      dsimp only
      repeat' split
      all_goals first
        | exact ⟨hm, hd⟩
        | exact ⟨moneyNonneg_updatePlayer _ _ _ (fun p hp => hp) hm, hd⟩
        | exact endGame_cash _ ⟨hm, hd⟩
        | exact advanceTurn_cash _ ⟨hm, hd⟩

/-- Witness for C4: ending the turn at the concrete two-player state keeps
every balance non-negative. -/
theorem player_cash_nonnegative_witness :
    moneyNonneg c5State ∧ decksOK c5State ∧
      moneyNonneg (step (fun l => l) 1 c5State (Act.endTurnA "A")).st :=
  ⟨by decide, by decide,
    (player_cash_nonnegative (fun l => l) (fun l h c hc => h c hc) 1 c5State
      (Act.endTurnA "A") (by decide) (by decide)).1⟩

/-! Claims C6 and C10: serialization.  The dict payloads of to_dict are
embedded as structures; fields irrelevant to the engine model (game id,
name, creation time, event log) are left out. -/

/-- Player.to_dict payload. -/
structure PlayerDict where
  id : String
  name : String
  money : Int
  position : Nat
  state : PlayerState
  jailTurns : Nat
  jailCards : Nat
  properties : List Nat
  deriving DecidableEq

/-- Property.to_dict payload (rents and house cost are not serialized). -/
structure PropDict where
  position : Nat
  name : String
  spaceType : SpaceType
  cost : Nat
  group : String
  ownerId : Option String
  houses : Nat
  hasHotel : Bool
  isMortgaged : Bool
  deriving DecidableEq

/-- Board.to_dict payload: the position-keyed property dict. -/
structure BoardDict where
  properties : List (Nat × PropDict)
  deriving DecidableEq

/-- RuleEngine.to_dict payload. -/
structure RulesDict where
  housesAvailable : Int
  hotelsAvailable : Int
  deriving DecidableEq

/-- CardDeck.to_dict payload: only the pile sizes are recorded. -/
structure DeckDict where
  cardType : CardType
  cardsRemaining : Nat
  discardCount : Nat
  deriving DecidableEq

/-- Game.to_dict payload. -/
structure GameDict where
  phase : GamePhase
  turnNumber : Nat
  currentPlayerIndex : Nat
  playerOrder : List String
  winnerId : Option String
  lastDiceRoll : Option (Nat × Nat)
  players : List (String × PlayerDict)
  board : BoardDict
  rules : RulesDict
  chanceDeck : DeckDict
  communityChestDeck : DeckDict
  deriving DecidableEq

/-- Player.to_dict. -/
def playerToDict (p : Player) : PlayerDict :=
  { id := p.id, name := p.name, money := p.money, position := p.position,
    state := p.state, jailTurns := p.jailTurns, jailCards := p.jailCards,
    properties := p.properties }

/-- Player.from_dict: the per-turn flags are not serialized and fall back
to the constructor defaults (0 and false). -/
def playerFromDict (d : PlayerDict) : Player :=
  { name := d.name, id := d.id, money := d.money, position := d.position,
    state := d.state, jailTurns := d.jailTurns, jailCards := d.jailCards,
    properties := d.properties }

/-- Property.to_dict. -/
def propToDict (p : Property) : PropDict :=
  { position := p.position, name := p.name, spaceType := p.spaceType,
    cost := p.cost, group := p.group, ownerId := p.ownerId,
    houses := p.houses, hasHotel := p.hasHotel, isMortgaged := p.isMortgaged }

/-- Board.to_dict. -/
def boardToDict (b : Board) : BoardDict :=
  ⟨b.map (fun p => (p.position, propToDict p))⟩

/-- CardDeck.to_dict. -/
def deckToDict (d : CardDeck) : DeckDict :=
  ⟨d.cardType, d.cards.length, d.discard.length⟩

/-- Board.from_dict: start from a fresh standard board and restore the
ownership and development of every recorded position present on it. -/
def boardFromDict (d : BoardDict) : Board :=
  d.properties.foldl (fun b pr => setPropB b pr.1 (fun q =>
    { q with
      ownerId := pr.2.ownerId
      houses := pr.2.houses
      hasHotel := pr.2.hasHotel
      isMortgaged := pr.2.isMortgaged })) freshBoard

/-- Game.to_dict. -/
def gameToDict (s : GameState) : GameDict :=
  { phase := s.phase, turnNumber := s.turnNumber,
    currentPlayerIndex := s.currentPlayerIndex, playerOrder := s.playerOrder,
    winnerId := s.winnerId,
    lastDiceRoll := s.lastDiceRoll.map (fun r => (r.die1, r.die2)),
    players := s.players.map (fun p => (p.id, playerToDict p)),
    board := boardToDict s.board,
    rules := ⟨s.housesAvailable, s.hotelsAvailable⟩,
    chanceDeck := deckToDict s.chance,
    communityChestDeck := deckToDict s.communityChest }

/-- Game.from_dict.  The card manager of the freshly constructed game is
never overwritten, so both decks stay in their reset state; the shuffles
of the two fresh decks are explicit parameters. -/
def gameFromDict (shC shCC : List Card → List Card) (d : GameDict) : GameState :=
  { board := boardFromDict d.board,
    players := d.players.map (fun pr => playerFromDict pr.2),
    playerOrder := d.playerOrder,
    currentPlayerIndex := d.currentPlayerIndex,
    phase := d.phase,
    turnNumber := d.turnNumber,
    lastDiceRoll := d.lastDiceRoll.map (fun pr => ⟨pr.1, pr.2⟩),
    winnerId := d.winnerId,
    housesAvailable := d.rules.housesAvailable,
    hotelsAvailable := d.rules.hotelsAvailable,
    chance := deckReset shC .CHANCE,
    communityChest := deckReset shCC .COMMUNITY_CHEST }

/-- The roster roundtrip restores every id and balance. -/
theorem players_roundtrip (L : List Player) :
    ((L.map (fun p => (p.id, playerToDict p))).map
        (fun pr => playerFromDict pr.2)).map (fun (p : Player) => (p.id, p.money)) =
      L.map (fun p => (p.id, p.money)) := by
  induction L with
  | nil => rfl
  | cons a t ih =>
      simp only [List.map_cons]
      rw [ih]
      rfl

/-- A fold of whole-list maps is the map of the per-element folds. -/
theorem foldl_map_comm {α β : Type} (g : β → α → α) (ps : List β) :
    ∀ b : List α, ps.foldl (fun b pr => b.map (g pr)) b =
      b.map (fun q => ps.foldl (fun q pr => g pr q) q) := by
  induction ps with
  | nil => intro b; simp
  | cons a t ih =>
      intro b
      rw [List.foldl_cons, ih (b.map (g a)), List.map_map]
      rfl

/-- The restoration Board.from_dict applies to one stored property. -/
def restoreProp (pd : PropDict) (q : Property) : Property :=
  { q with
    ownerId := pd.ownerId
    houses := pd.houses
    hasHotel := pd.hasHotel
    isMortgaged := pd.isMortgaged }

/-- Board.reset of one property, as produced for the fresh board. -/
def clearProp (q : Property) : Property :=
  { q with
    ownerId := none
    houses := 0
    hasHotel := false
    isMortgaged := false }

/-- Restoring a serialized property onto its cleared self gives it back. -/
theorem restoreProp_toDict (p : Property) : restoreProp (propToDict p) (clearProp p) = p := rfl

/-- A restoration fold that never hits the property's position is a no-op. -/
theorem fold_restore_skip (ps : List (Nat × PropDict)) :
    ∀ q : Property, (∀ pr ∈ ps, pr.1 ≠ q.position) →
      ps.foldl (fun q pr => if q.position = pr.1 then restoreProp pr.2 q else q) q = q := by
  induction ps with
  | nil => exact fun q _ => rfl
  | cons a t ih =>
      intro q h
      rw [List.foldl_cons, if_neg (fun hh => h a (List.mem_cons_self a t) hh.symm)]
      exact ih q (fun pr hpr => h pr (List.mem_cons_of_mem a hpr))

/-- Restoring every serialized property of a duplicate-free board onto its
cleared self rebuilds the board. -/
theorem map_fold_restore : ∀ L : List Property, (L.map Property.position).Nodup →
    (L.map clearProp).map (fun q => (L.map (fun p => (p.position, propToDict p))).foldl
      (fun q pr => if q.position = pr.1 then restoreProp pr.2 q else q) q) = L := by
  intro L
  induction L with
  | nil => intro _; rfl
  | cons a t ih =>
      intro hn
      rw [List.map_cons] at hn
      obtain ⟨hn1, hn2⟩ := List.nodup_cons.mp hn
      have hkey : ∀ pr ∈ t.map (fun p => (p.position, propToDict p)), pr.1 ≠ a.position := by
        intro pr hpr hh
        obtain ⟨p, hp, hpe⟩ := List.mem_map.mp hpr
        apply hn1
        apply List.mem_map.mpr
        refine ⟨p, hp, ?_⟩
        rw [← hpe] at hh
        exact hh
      simp only [List.map_cons, List.foldl_cons, List.cons.injEq]
      constructor
      · have hstep : (if (clearProp a).position = (a.position, propToDict a).1
            then restoreProp (a.position, propToDict a).2 (clearProp a)
            else clearProp a) = a := by
          rw [if_pos (show (clearProp a).position = (a.position, propToDict a).1 from rfl)]
          exact restoreProp_toDict a
        rw [hstep]
        exact fold_restore_skip _ a hkey
      · have hmap : ∀ q ∈ t.map clearProp,
            (t.map (fun p => (p.position, propToDict p))).foldl
              (fun q pr => if q.position = pr.1 then restoreProp pr.2 q else q)
              (if q.position = (a.position, propToDict a).1
                then restoreProp (a.position, propToDict a).2 q
                else q) =
            (t.map (fun p => (p.position, propToDict p))).foldl
              (fun q pr => if q.position = pr.1 then restoreProp pr.2 q else q) q := by
          intro q hq
          obtain ⟨p, hp, rfl⟩ := List.mem_map.mp hq
          rw [if_neg]
          intro hh
          apply hn1
          apply List.mem_map.mpr
          exact ⟨p, hp, hh⟩
        rw [List.map_congr_left hmap]
        exact ih hn2

/-- Claim C6.  For any game over the standard board, from_dict after
to_dict restores the turn number, every player's balance, and the whole
board - in particular every property's owner. -/
theorem game_dict_roundtrip (shC shCC : List Card → List Card)
    (m : Nat → PropMut) (g : GameState) (hb : g.board = mkStdBoard m) :
    (gameFromDict shC shCC (gameToDict g)).turnNumber = g.turnNumber ∧
    (gameFromDict shC shCC (gameToDict g)).players.map (fun (p : Player) => (p.id, p.money)) =
      g.players.map (fun p => (p.id, p.money)) ∧
    (gameFromDict shC shCC (gameToDict g)).board = g.board := by
  refine ⟨rfl, players_roundtrip g.players, ?_⟩
  have hb2 : (gameFromDict shC shCC (gameToDict g)).board =
      boardFromDict (boardToDict g.board) := rfl
  have hb3 : boardFromDict (boardToDict (mkStdBoard m)) =
      freshBoard.map (fun q =>
        ((mkStdBoard m).map (fun p => (p.position, propToDict p))).foldl
          (fun q pr => if q.position = pr.1 then restoreProp pr.2 q else q) q) :=
    foldl_map_comm _ _ freshBoard
  have hfresh : freshBoard = (mkStdBoard m).map clearProp := rfl
  have hpos : (mkStdBoard m).map Property.position =
      [1, 3, 6, 8, 9, 11, 13, 14, 16, 18, 19, 21, 23, 24, 26, 27, 29, 31, 32, 34,
        37, 39, 5, 15, 25, 35, 12, 28] := rfl
  have hnd : ((mkStdBoard m).map Property.position).Nodup := by
    rw [hpos]
    decide
  rw [hb2, hb, hb3, hfresh]
  exact map_fold_restore (mkStdBoard m) hnd

/-- Witness for C6: the roundtrip at the concrete C3 state. -/
theorem game_dict_roundtrip_witness :
    c3State.board = mkStdBoard c3Muts ∧
      ((gameFromDict (fun l => l) (fun l => l) (gameToDict c3State)).players.map
          (fun (p : Player) => (p.id, p.money)) =
        c3State.players.map (fun p => (p.id, p.money))) ∧
      (gameFromDict (fun l => l) (fun l => l) (gameToDict c3State)).board = c3State.board :=
  ⟨rfl, (game_dict_roundtrip (fun l => l) (fun l => l) c3Muts c3State rfl).2.1,
    (game_dict_roundtrip (fun l => l) (fun l => l) c3Muts c3State rfl).2.2⟩

/-- Claim C10.  Game.from_dict always produces freshly reset decks - a
full shuffled draw pile and an empty discard pile - no matter what deck
state the dict records, while the turn counter, bank inventory, roster
and board are taken from the dict. -/
theorem decks_reset_on_load (shC shCC : List Card → List Card) (d : GameDict) :
    (gameFromDict shC shCC d).chance = ⟨CardType.CHANCE, shC chanceCards, []⟩ ∧
    (gameFromDict shC shCC d).communityChest =
      ⟨CardType.COMMUNITY_CHEST, shCC communityChestCards, []⟩ ∧
    (gameFromDict shC shCC d).turnNumber = d.turnNumber ∧
    (gameFromDict shC shCC d).housesAvailable = d.rules.housesAvailable ∧
    (gameFromDict shC shCC d).hotelsAvailable = d.rules.hotelsAvailable ∧
    (gameFromDict shC shCC d).players = d.players.map (fun pr => playerFromDict pr.2) ∧
    (gameFromDict shC shCC d).board = boardFromDict d.board :=
  ⟨rfl, rfl, rfl, rfl, rfl, rfl, rfl⟩

/-! Claim C7: use_jail_card always hands the used card to the CHANCE deck
(game.py calls return_jail_card(CardType.CHANCE) with a "# Simplified"
comment), even when the card was drawn from Community Chest. -/

/-- C7 staging: a lone active player and a Community Chest deck holding
exactly one Get Out of Jail Free card. -/
def c7A : Player := { name := "Alice", id := "A" }

/-- The C7 start state. -/
def c7Start : GameState :=
  { board := freshBoard, players := [c7A], playerOrder := ["A"],
    currentPlayerIndex := 0, phase := .PRE_ROLL,
    chance := emptyDeck .CHANCE,
    communityChest := ⟨.COMMUNITY_CHEST, [gojfCard .COMMUNITY_CHEST], []⟩ }

/-- The state after drawing the jail card from the Community Chest deck. -/
def c7Draw : GameState := (handleCard (fun l => l) 2 c7Start "A" CardType.COMMUNITY_CHEST ⟨1, 2⟩).st

/-- The drawn-card holder, sent to jail. -/
def c7Jailed : GameState := updatePlayer c7Draw "A" Player.sendToJail

/-- Counterexample to C7: the jail card drawn from the Community Chest deck
is returned, on use, to the Chance deck's discard pile as a CHANCE card -
the Community Chest deck never gets it back. -/
theorem jail_card_returned_to_wrong_deck :
    (findPlayer c7Draw "A").map Player.jailCards = some 1 ∧
    c7Draw.communityChest.cards = [] ∧
    c7Draw.communityChest.discard = [] ∧
    (useJailCard c7Jailed "A").ok = true ∧
    (useJailCard c7Jailed "A").st.chance.discard = [gojfCard CardType.CHANCE] ∧
    (useJailCard c7Jailed "A").st.communityChest.discard = [] ∧
    (findPlayer (useJailCard c7Jailed "A").st "A").map Player.jailCards = some 0 := by
  decide

/-- Claim C7 as amended.  A successful use_jail_card decrements the card
count and releases the player, but the used card is always returned to the
CHANCE deck's discard pile as a fresh CHANCE-type card; the Community
Chest deck is left untouched. -/
theorem use_jail_card_amended (s : GameState) (pid : String) (player : Player)
    (hp : findPlayer s pid = some player)
    (hok : (useJailCard s pid).ok = true) :
    (∃ p', findPlayer (useJailCard s pid).st pid = some p' ∧
      p'.jailCards = player.jailCards - 1 ∧ p'.state = PlayerState.ACTIVE) ∧
    (useJailCard s pid).st.chance.discard = s.chance.discard ++ [gojfCard CardType.CHANCE] ∧
    (useJailCard s pid).st.communityChest = s.communityChest := by
  have hid : player.id = pid := findPlayer_id s pid player hp
  unfold useJailCard at hok ⊢
  rw [hp] at hok ⊢
  dsimp only at hok ⊢
  by_cases hv : (validateUseJailCard player (currentPlayerIdStr s)).valid = true
  · rw [if_pos hv] at hok ⊢
    refine ⟨⟨Player.releaseFromJail { player with jailCards := player.jailCards - 1 },
      ?_, rfl, rfl⟩, rfl, rfl⟩
    show findPlayer (updatePlayer s pid
      (fun p => Player.releaseFromJail { p with jailCards := p.jailCards - 1 })) pid = _
    rw [findPlayer_updatePlayer s pid pid
      (fun p => Player.releaseFromJail { p with jailCards := p.jailCards - 1 })
      (fun p => rfl), hp]
    simp [hid]
  · rw [if_neg hv] at hok
    exact Bool.noConfusion hok

/-- Witness for the amended C7: the concrete player who drew the card from
Community Chest uses it successfully. -/
theorem use_jail_card_amended_witness :
    (useJailCard c7Jailed "A").ok = true ∧
    (useJailCard c7Jailed "A").st.chance.discard =
      c7Jailed.chance.discard ++ [gojfCard CardType.CHANCE] ∧
    (useJailCard c7Jailed "A").st.communityChest = c7Jailed.communityChest :=
  ⟨by decide,
    (use_jail_card_amended c7Jailed "A"
      (Player.sendToJail { c7A with jailCards := 1 }) (by decide) (by decide)).2.1,
    (use_jail_card_amended c7Jailed "A"
      (Player.sendToJail { c7A with jailCards := 1 }) (by decide) (by decide)).2.2⟩

/-! Claim C9: ConnectionManager.transfer_host, from
src/server/network/connection_manager.py.  Websockets are modeled as
naturals; the four dicts become association lists. -/

/-- PlayerConnection (timestamps omitted). -/
structure PlayerConn where
  playerId : String
  playerName : String
  socket : Nat
  gameId : Option String := none
  isHost : Bool := false
  isSpectator : Bool := false
  deriving DecidableEq

/-- Python dict.get over an association list. -/
def dictGet {κ α : Type} [BEq κ] (l : List (κ × α)) (k : κ) : Option α :=
  (l.find? (fun pr => pr.1 == k)).map (fun pr => pr.2)

/-- The ConnectionManager state: connections keyed by socket, the
player-to-socket index, the per-game player sets, and the parked
connections of disconnected players. -/
structure ConnMgr where
  connections : List (Nat × PlayerConn)
  playerToSocket : List (String × Nat)
  gamePlayers : List (String × List String)
  disconnected : List (String × PlayerConn)
  deriving DecidableEq

/-- ConnectionManager.get_connection_by_player_id. -/
def getConnectionByPlayerId (cm : ConnMgr) (pid : String) : Option PlayerConn :=
  match dictGet cm.playerToSocket pid with
  | none => none
  | some ws => dictGet cm.connections ws

/-- self._game_players.get(game_id, set()). -/
def playersInGame (cm : ConnMgr) (gid : String) : List String :=
  (dictGet cm.gamePlayers gid).getD []

/-- ConnectionManager.is_player_in_game. -/
def isPlayerInGame (cm : ConnMgr) (pid gid : String) : Bool :=
  (playersInGame cm gid).contains pid

/-- ConnectionManager.get_connected_players_in_game. -/
def getConnectedPlayersInGame (cm : ConnMgr) (gid : String) : List PlayerConn :=
  (playersInGame cm gid).filterMap (fun pid => getConnectionByPlayerId cm pid)

/-- In-place mutation of the host flag of the connection stored under a
socket. -/
def setHostFlag (cm : ConnMgr) (ws : Nat) (b : Bool) : ConnMgr :=
  { cm with connections := cm.connections.map (fun pr =>
      if pr.1 = ws then (pr.1, { pr.2 with isHost := b }) else pr) }

/-- The first loop of transfer_host: clear the flag of the first connected
player in the game whose connection is marked host. -/
def clearCurrentHost (cm : ConnMgr) (gid : String) : ConnMgr :=
  match (playersInGame cm gid).find? (fun pid =>
      match getConnectionByPlayerId cm pid with
      | some c => c.isHost
      | none => false) with
  | some pid =>
      match dictGet cm.playerToSocket pid with
      | some ws => setHostFlag cm ws false
      | none => cm
  | none => cm

/-- ConnectionManager.transfer_host. -/
def transferHost (cm : ConnMgr) (gid : String) (newHostId : String) : Bool × ConnMgr :=
  if ¬ isPlayerInGame cm newHostId gid then (false, cm)
  else
    let cm2 := clearCurrentHost cm gid
    match dictGet cm2.playerToSocket newHostId with
    | none => (false, cm2)
    | some ws =>
        match dictGet cm2.connections ws with
        | none => (false, cm2)
        | some _ => (true, setHostFlag cm2 ws true)

/-- Host transfer never touches the player-to-socket index. -/
theorem clearCurrentHost_playerToSocket (cm : ConnMgr) (gid : String) :
    (clearCurrentHost cm gid).playerToSocket = cm.playerToSocket := by
  unfold clearCurrentHost
  repeat' split
  all_goals rfl

/-- C9 staging: Alice is connected and hosts game g; Bob is recorded as a
player of g but his connection is parked in the disconnected map, so he
has no entry in the player-to-socket index. -/
def c9A : PlayerConn :=
  { playerId := "A", playerName := "Alice", socket := 1, gameId := some "g", isHost := true }

/-- The disconnected target. -/
def c9B : PlayerConn :=
  { playerId := "B", playerName := "Bob", socket := 2, gameId := some "g" }

/-- The C9 manager state. -/
def c9Mgr : ConnMgr :=
  { connections := [(1, c9A)],
    playerToSocket := [("A", 1)],
    gamePlayers := [("g", ["A", "B"])],
    disconnected := [("B", c9B)] }

/-- Counterexample to C9: transferring the host role to a game member whose
connection cannot be resolved fails, yet the previous host's flag has
already been cleared - the failure is not atomic. -/
theorem transfer_host_not_atomic :
    isPlayerInGame c9Mgr "B" "g" = true ∧
    (transferHost c9Mgr "g" "B").1 = false ∧
    (getConnectionByPlayerId c9Mgr "A").map PlayerConn.isHost = some true ∧
    (getConnectionByPlayerId (transferHost c9Mgr "g" "B").2 "A").map PlayerConn.isHost =
      some false := by
  decide

/-- Claim C9 as amended.  transfer_host is atomic only in the
target-not-in-game case; otherwise it first clears the current host flag,
then either succeeds by setting the target's flag or fails with the old
host flag already cleared when the target cannot be resolved. -/
theorem transfer_host_amended (cm : ConnMgr) (gid pid : String) :
    (isPlayerInGame cm pid gid = false → transferHost cm gid pid = (false, cm)) ∧
    (isPlayerInGame cm pid gid = true →
      ∀ ws, dictGet cm.playerToSocket pid = some ws →
      ∀ c, dictGet (clearCurrentHost cm gid).connections ws = some c →
        transferHost cm gid pid = (true, setHostFlag (clearCurrentHost cm gid) ws true)) ∧
    (isPlayerInGame cm pid gid = true →
      getConnectionByPlayerId (clearCurrentHost cm gid) pid = none →
        transferHost cm gid pid = (false, clearCurrentHost cm gid)) := by
  refine ⟨fun h1 => ?_, fun h1 ws hws c hc => ?_, fun h1 hres => ?_⟩
  · unfold transferHost
    rw [if_pos (by rw [h1]; exact Bool.false_ne_true)]
  · unfold transferHost
    rw [if_neg (by rw [h1]; exact fun hh => hh rfl)]
    dsimp only
    rw [clearCurrentHost_playerToSocket, hws]
    dsimp only
    rw [hc]
  · unfold transferHost
    rw [if_neg (by rw [h1]; exact fun hh => hh rfl)]
    dsimp only
    unfold getConnectionByPlayerId at hres
    rw [clearCurrentHost_playerToSocket] at hres
    cases hws : dictGet cm.playerToSocket pid with
    | none => rw [clearCurrentHost_playerToSocket, hws]
    | some ws =>
        rw [hws] at hres
        dsimp only at hres
        rw [clearCurrentHost_playerToSocket, hws]
        dsimp only
        rw [hres]

/-- Witness for the amended C9: at the concrete manager, the in-game but
unresolvable target leaves the call failed with the host flag cleared. -/
theorem transfer_host_amended_witness :
    isPlayerInGame c9Mgr "B" "g" = true ∧
    getConnectionByPlayerId (clearCurrentHost c9Mgr "g") "B" = none ∧
    transferHost c9Mgr "g" "B" = (false, clearCurrentHost c9Mgr "g") :=
  ⟨by decide, by decide,
    (transfer_host_amended c9Mgr "g" "B").2.2 (by decide) (by decide)⟩

end Monopoly
